import Mathlib

/-!
Verification development for the quiz-league web application
(server code: `server/routes.ts`, `server/storage.ts`, `server/local-storage.ts`).

The embedding models the in-memory storage backend (`LocalStorageAdapter`),
the relevant pieces of the database schema (`shared/schema.ts`, inlined at the
end of `storage.ts`), the Express route handlers and the WebSocket handlers of
`registerRoutes` in `server/routes.ts`, and a transition system over the
full set of state-writing operations the server exposes.

Modelling conventions:
- `Record<string, X>` stores and JS `Map`s become association lists in
  insertion order; key lookup is first-match, `set` replaces the first
  matching key in place or appends, exactly like JS object/Map semantics.
- JS `Set<WebSocket>` becomes a duplicate-free `List Nat` in insertion order;
  sockets are identified by natural numbers.
- Timestamps are `Int` (milliseconds since epoch); SQL `decimal` columns,
  which drizzle surfaces as strings, are `String`.
- `generateId()` (random ids) and `bcrypt` results are nondeterministic, so
  freshly generated ids and hashes are parameters of each operation.
- `sort(() => Math.random() - 0.5)` in `getQuestionsByMode` is modelled as
  the identity permutation; no claim depends on the shuffle.
-/

namespace QuizLeague

/-- `matchStatusEnum` from the schema: `pgEnum("match_status", ["waiting", "live", "completed"])`.
This is the TypeScript type of the `status` members of `InsertMatch`. -/
inductive MatchStatus where
  | waiting
  | live
  | completed
deriving DecidableEq, Repr

/-- The string a `MatchStatus` enum member stands for in the database column. -/
def MatchStatus.str : MatchStatus → String
  | .waiting => "waiting"
  | .live => "live"
  | .completed => "completed"

/-- Row of the `users` table. -/
structure User where
  id : String
  email : String
  username : String
  password : String
  role : String
deriving DecidableEq, Repr

/-- Row of the `teams` table. -/
structure Team where
  id : String
  name : String
  description : Option String
  createdBy : String
  practiceTokens : Int
deriving DecidableEq, Repr

/-- Row of the `team_members` junction table. -/
structure TeamMember where
  id : String
  teamId : String
  userId : String
deriving DecidableEq, Repr

/-- Row of the `competitions` table. -/
structure Competition where
  id : String
  name : String
  description : Option String
  registrationFee : String
  maxTeams : Int
  startDate : Int
  endDate : Int
  registrationDeadline : Int
  isActive : Bool
deriving DecidableEq, Repr

/-- Row of the `competition_registrations` table. -/
structure CompetitionRegistration where
  id : String
  competitionId : String
  teamId : String
  paidBy : String
  paymentId : Option String
deriving DecidableEq, Repr

/-- Row of the `matches` table. The `status` column is the `match_status`
enum stored as text; it carries `.default("waiting")`. -/
structure GameMatch where
  id : String
  competitionId : String
  homeTeamId : String
  awayTeamId : String
  round : Int
  scheduledAt : Int
  status : String
  homeScore : Int
  awayScore : Int
  startedAt : Option Int
  completedAt : Option Int
deriving DecidableEq, Repr

/-- Row of the `questions` table. -/
structure Question where
  id : String
  competitionId : Option String
  questionText : String
  optionA : String
  optionB : String
  optionC : String
  optionD : String
  correctAnswer : String
  subject : String
  difficulty : String
  mode : String
  timeLimit : Int
deriving DecidableEq, Repr

/-- Row of the `player_answers` table. -/
structure PlayerAnswer where
  id : String
  matchId : String
  questionId : String
  userId : String
  teamId : String
  answer : Option String
  isCorrect : Bool
  timeTaken : Option Int
deriving DecidableEq, Repr

/-- Row of the `standings` table. -/
structure Standing where
  id : String
  competitionId : String
  teamId : String
  played : Int
  won : Int
  drawn : Int
  lost : Int
  pointsFor : Int
  pointsAgainst : Int
  goalDifference : Int
  leaguePoints : Int
deriving DecidableEq, Repr

/-- Row of the `token_transactions` table. -/
structure TokenTransaction where
  id : String
  teamId : String
  userId : String
  amount : Int
  type : String
  paymentId : Option String
deriving DecidableEq, Repr

/-- Row of the `payments` table. -/
structure Payment where
  id : String
  userId : String
  teamId : Option String
  competitionId : Option String
  amount : String
  type : String
  status : String
  reference : Option String
deriving DecidableEq, Repr

/-- Row of the `practice_sessions` table. -/
structure PracticeSession where
  id : String
  teamId : String
  userId : String
  type : String
  status : String
  score : Int
  totalQuestions : Int
deriving DecidableEq, Repr

/-- Row of the `team_invitations` table. -/
structure TeamInvitation where
  id : String
  teamId : String
  email : String
  invitedBy : String
  status : String
  expiresAt : Int
deriving DecidableEq, Repr

/-- The `LocalData` record of `LocalStorageAdapter`: one keyed store per
table. Each `Record<string, X>` keyed by `x.id` is a list of values in
insertion order. -/
structure LocalData where
  users : List User
  teams : List Team
  teamMembers : List TeamMember
  competitions : List Competition
  competitionRegistrations : List CompetitionRegistration
  gameMatches : List GameMatch  -- the `matches` store (`matches` is a reserved word in Lean)
  questions : List Question
  playerAnswers : List PlayerAnswer
  standings : List Standing
  tokenTransactions : List TokenTransaction
  payments : List Payment
  practiceSessions : List PracticeSession
  teamInvitations : List TeamInvitation
deriving DecidableEq, Repr

/-- The empty `LocalData` that `LocalStorageAdapter` starts with. -/
def emptyLocalData : LocalData :=
  { users := [], teams := [], teamMembers := [], competitions := [],
    competitionRegistrations := [], gameMatches := [], questions := [],
    playerAnswers := [], standings := [], tokenTransactions := [],
    payments := [], practiceSessions := [], teamInvitations := [] }

/-! ### Association list and set primitives (JS `Map` and `Set` semantics) -/

/-- `m.get(k)` on a JS `Map` / keyed `Record`: first entry with the key. -/
def mapLookup (l : List (String × α)) (k : String) : Option α :=
  (l.find? (fun p => decide (p.1 = k))).map (·.2)

/-- `m.set(k, v)` on a JS `Map`: replace the value of an existing key in
place, otherwise append the new entry. -/
def mapSet : List (String × α) → String → α → List (String × α)
  | [], k, v => [(k, v)]
  | p :: rest, k, v => if p.1 = k then (k, v) :: rest else p :: mapSet rest k v

/-- `s.add(x)` on a JS `Set`: no change when present, append when absent. -/
def setAdd (x : Nat) (l : List Nat) : List Nat :=
  if x ∈ l then l else l ++ [x]

/-- `s.delete(x)` on a JS `Set`. -/
def setDelete (x : Nat) (l : List Nat) : List Nat :=
  l.filter (fun y => decide (y ≠ x))

/-- `this.data.xs[id] = {...old, ...patch}` on a keyed store: rewrite the
entry with the given id, leave the store unchanged when the id is absent. -/
def updateById (l : List α) (idOf : α → String) (id : String) (f : α → α) : List α :=
  l.map (fun x => if idOf x = id then f x else x)

/-! ### `LocalStorageAdapter` operations used by the claims

Each definition embeds the method of the same name in
`server/local-storage.ts` (the storage backend `storage.ts` selects when no
database is configured; the `DatabaseStorage` methods in `server/storage.ts`
are row-for-row equivalents over SQL). -/

/-- `getUser`. -/
def getUser (d : LocalData) (id : String) : Option User :=
  d.users.find? (fun u => decide (u.id = id))

/-- `getUserByEmail`. -/
def getUserByEmail (d : LocalData) (email : String) : Option User :=
  d.users.find? (fun u => decide (u.email = email))

/-- `getUserByUsername`. -/
def getUserByUsername (d : LocalData) (username : String) : Option User :=
  d.users.find? (fun u => decide (u.username = username))

/-- `createUser`: insert with a freshly generated id. -/
def createUser (d : LocalData) (u : User) : LocalData :=
  { d with users := d.users ++ [u] }

/-- `Partial<User>` patches used by the routes. -/
structure UserPatch where
  username : Option String := none
  email : Option String := none
  password : Option String := none
deriving Repr

/-- `{...user, ...data}` for a `UserPatch`. -/
def User.applyPatch (u : User) (p : UserPatch) : User :=
  { u with
    username := p.username.getD u.username
    email := p.email.getD u.email
    password := p.password.getD u.password }

/-- `updateUser`. -/
def updateUser (d : LocalData) (id : String) (p : UserPatch) : LocalData :=
  { d with users := updateById d.users (·.id) id (·.applyPatch p) }

/-- `getTeam`. -/
def getTeam (d : LocalData) (id : String) : Option Team :=
  d.teams.find? (fun t => decide (t.id = id))

/-- `createTeam`: insert with `practiceTokens: 0`. -/
def createTeam (d : LocalData) (id name : String) (description : Option String)
    (createdBy : String) : LocalData :=
  { d with teams := d.teams ++
      [{ id := id, name := name, description := description,
         createdBy := createdBy, practiceTokens := 0 }] }

/-- `Partial<Team>` patches used by the routes (only `practiceTokens`). -/
structure TeamPatch where
  practiceTokens : Option Int := none
deriving Repr

/-- `{...team, ...data}` for a `TeamPatch`. -/
def Team.applyPatch (t : Team) (p : TeamPatch) : Team :=
  { t with practiceTokens := p.practiceTokens.getD t.practiceTokens }

/-- `updateTeam`. -/
def updateTeam (d : LocalData) (id : String) (p : TeamPatch) : LocalData :=
  { d with teams := updateById d.teams (·.id) id (·.applyPatch p) }

/-- `addTeamMember`. -/
def addTeamMember (d : LocalData) (m : TeamMember) : LocalData :=
  { d with teamMembers := d.teamMembers ++ [m] }

/-- `getTeamMembers`. -/
def getTeamMembers (d : LocalData) (teamId : String) : List TeamMember :=
  d.teamMembers.filter (fun m => decide (m.teamId = teamId))

/-- `isTeamMember`. -/
def isTeamMember (d : LocalData) (teamId userId : String) : Bool :=
  d.teamMembers.any (fun m => decide (m.teamId = teamId) && decide (m.userId = userId))

/-- `getCompetition`. -/
def getCompetition (d : LocalData) (id : String) : Option Competition :=
  d.competitions.find? (fun c => decide (c.id = id))

/-- `createCompetition`: insert with `isActive: true`. -/
def createCompetition (d : LocalData) (c : Competition) : LocalData :=
  { d with competitions := d.competitions ++ [c] }

/-- `registerTeam`. -/
def registerTeam (d : LocalData) (r : CompetitionRegistration) : LocalData :=
  { d with competitionRegistrations := d.competitionRegistrations ++ [r] }

/-- `getRegisteredTeams`. -/
def getRegisteredTeams (d : LocalData) (competitionId : String) :
    List CompetitionRegistration :=
  d.competitionRegistrations.filter (fun r => decide (r.competitionId = competitionId))

/-- `isTeamRegistered`. -/
def isTeamRegistered (d : LocalData) (competitionId teamId : String) : Bool :=
  d.competitionRegistrations.any
    (fun r => decide (r.competitionId = competitionId) && decide (r.teamId = teamId))

/-- `getMatch`. -/
def getMatch (d : LocalData) (id : String) : Option GameMatch :=
  d.gameMatches.find? (fun m => decide (m.id = id))

/-- The insert type of the `matches` table: `insertMatchSchema` omits `id`,
`homeScore`, `awayScore`, `startedAt` and `completedAt`; `status` has a
column default and is therefore optional, and its TypeScript type is the
`match_status` enum. -/
structure InsertMatch where
  competitionId : String
  homeTeamId : String
  awayTeamId : String
  round : Int
  scheduledAt : Int
  status : Option MatchStatus := none
deriving Repr

/-- `createMatch`: a new row gets `homeScore: 0`, `awayScore: 0`,
`startedAt: null`, `completedAt: null`; an omitted `status` takes the
column default `"waiting"`. -/
def createMatchRecord (ins : InsertMatch) (id : String) : GameMatch :=
  { id := id
    competitionId := ins.competitionId
    homeTeamId := ins.homeTeamId
    awayTeamId := ins.awayTeamId
    round := ins.round
    scheduledAt := ins.scheduledAt
    status := (ins.status.getD .waiting).str
    homeScore := 0
    awayScore := 0
    startedAt := none
    completedAt := none }

/-- `createMatch` on the store. -/
def createMatch (d : LocalData) (ins : InsertMatch) (id : String) : LocalData :=
  { d with gameMatches := d.gameMatches ++ [createMatchRecord ins id] }

/-- `Partial<Match>` patches used by the routes: `{homeScore, awayScore}`
in the answer handler, `{status, startedAt}` in the admin start handler. -/
structure MatchPatch where
  status : Option String := none
  homeScore : Option Int := none
  awayScore : Option Int := none
  startedAt : Option Int := none
deriving Repr

/-- `{...match, ...data}` for a `MatchPatch`. -/
def GameMatch.applyPatch (m : GameMatch) (p : MatchPatch) : GameMatch :=
  { m with
    status := p.status.getD m.status
    homeScore := p.homeScore.getD m.homeScore
    awayScore := p.awayScore.getD m.awayScore
    startedAt := (p.startedAt.map some).getD m.startedAt }

/-- `updateMatch`. -/
def updateMatch (d : LocalData) (id : String) (p : MatchPatch) : LocalData :=
  { d with gameMatches := updateById d.gameMatches (·.id) id (·.applyPatch p) }

/-- `getQuestion`. -/
def getQuestion (d : LocalData) (id : String) : Option Question :=
  d.questions.find? (fun q => decide (q.id = id))

/-- `getQuestionsByMode` with the random shuffle modelled as the identity
permutation: filter by mode, take the limit. -/
def getQuestionsByMode (d : LocalData) (mode : String) (limit : Nat) : List Question :=
  (d.questions.filter (fun q => decide (q.mode = mode))).take limit

/-- `createQuestion`. -/
def createQuestion (d : LocalData) (q : Question) : LocalData :=
  { d with questions := d.questions ++ [q] }

/-- `submitAnswer`: insert the answer row. -/
def submitAnswer (d : LocalData) (a : PlayerAnswer) : LocalData :=
  { d with playerAnswers := d.playerAnswers ++ [a] }

/-- `getAnswersByMatch`. -/
def getAnswersByMatch (d : LocalData) (matchId : String) : List PlayerAnswer :=
  d.playerAnswers.filter (fun a => decide (a.matchId = matchId))

/-- `getPlayerScoresByMatch`: per-user correct-answer counts. The JS body
tests `!scores[userId]` (true for both a missing entry and a zero entry)
before seeding the entry with `0`, then increments on a correct answer. -/
def getPlayerScoresByMatch (d : LocalData) (matchId : String) : List (String × Int) :=
  (getAnswersByMatch d matchId).foldl
    (fun scores a =>
      let scores := if (mapLookup scores a.userId).getD 0 = 0
        then mapSet scores a.userId 0 else scores
      if a.isCorrect
        then mapSet scores a.userId ((mapLookup scores a.userId).getD 0 + 1)
        else scores)
    []

/-- The all-zero standing row built by `createStanding` at registration. -/
def zeroStanding (id competitionId teamId : String) : Standing :=
  { id := id, competitionId := competitionId, teamId := teamId,
    played := 0, won := 0, drawn := 0, lost := 0,
    pointsFor := 0, pointsAgainst := 0, goalDifference := 0, leaguePoints := 0 }

/-- `createStanding`. -/
def createStanding (d : LocalData) (s : Standing) : LocalData :=
  { d with standings := d.standings ++ [s] }

/-- `Partial<Standing>` patch; `updateStanding` exists in both storage
backends but has no caller anywhere in the server. -/
structure StandingPatch where
  played : Option Int := none
  won : Option Int := none
  drawn : Option Int := none
  lost : Option Int := none
  pointsFor : Option Int := none
  pointsAgainst : Option Int := none
  goalDifference : Option Int := none
  leaguePoints : Option Int := none
deriving Repr

/-- `{...standing, ...data}` for a `StandingPatch`. -/
def Standing.applyPatch (s : Standing) (p : StandingPatch) : Standing :=
  { s with
    played := p.played.getD s.played
    won := p.won.getD s.won
    drawn := p.drawn.getD s.drawn
    lost := p.lost.getD s.lost
    pointsFor := p.pointsFor.getD s.pointsFor
    pointsAgainst := p.pointsAgainst.getD s.pointsAgainst
    goalDifference := p.goalDifference.getD s.goalDifference
    leaguePoints := p.leaguePoints.getD s.leaguePoints }

/-- `updateStanding` (never invoked by any route or handler). -/
def updateStanding (d : LocalData) (id : String) (p : StandingPatch) : LocalData :=
  { d with standings := updateById d.standings (·.id) id (·.applyPatch p) }

/-- `createTokenTransaction`. -/
def createTokenTransaction (d : LocalData) (t : TokenTransaction) : LocalData :=
  { d with tokenTransactions := d.tokenTransactions ++ [t] }

/-- `createPayment`. -/
def createPayment (d : LocalData) (p : Payment) : LocalData :=
  { d with payments := d.payments ++ [p] }

/-- `createPracticeSession`: a new session gets `score: 0`,
`totalQuestions: 0`; `status` comes from the insert. -/
def createPracticeSession (d : LocalData) (id teamId userId ptype status : String) :
    LocalData × PracticeSession :=
  let sess : PracticeSession :=
    { id := id, teamId := teamId, userId := userId, type := ptype,
      status := status, score := 0, totalQuestions := 0 }
  ({ d with practiceSessions := d.practiceSessions ++ [sess] }, sess)

/-- `getPracticeSession`. -/
def getPracticeSession (d : LocalData) (id : String) : Option PracticeSession :=
  d.practiceSessions.find? (fun s => decide (s.id = id))

/-- `Partial<PracticeSession>` patches used by the routes. -/
structure PracticeSessionPatch where
  score : Option Int := none
  totalQuestions : Option Int := none
deriving Repr

/-- `{...session, ...data}` for a `PracticeSessionPatch`. -/
def PracticeSession.applyPatch (s : PracticeSession) (p : PracticeSessionPatch) :
    PracticeSession :=
  { s with
    score := p.score.getD s.score
    totalQuestions := p.totalQuestions.getD s.totalQuestions }

/-- `updatePracticeSession`. -/
def updatePracticeSession (d : LocalData) (id : String) (p : PracticeSessionPatch) :
    LocalData :=
  { d with practiceSessions := updateById d.practiceSessions (·.id) id (·.applyPatch p) }

/-- `createInvitation`: a new invitation gets `status: "pending"`. -/
def createInvitation (d : LocalData) (id teamId email invitedBy : String)
    (expiresAt : Int) : LocalData :=
  { d with teamInvitations := d.teamInvitations ++
      [{ id := id, teamId := teamId, email := email, invitedBy := invitedBy,
         status := "pending", expiresAt := expiresAt }] }

/-! ### WebSocket server state (`server/routes.ts`, lines 40-47)

`matchRooms : Map<string, Set<WebSocket>>` and `matchStates : Map<string, {...}>`,
plus the storage backend. `closedSockets` records the sockets whose `close`
event has fired; the `ws` runtime guarantees `close` is the final event of a
socket, so no `message` event of a closed socket can reach the server. -/

/-- The per-match in-memory state kept in `matchStates`. -/
structure MatchState where
  status : String
  currentQuestion : Int
  homeScore : Int
  awayScore : Int
  timeRemaining : Int
deriving DecidableEq, Repr

/-- The default state the `join_match` branch uses when `matchStates` has no
entry for the match: `{status: "waiting", currentQuestion: 0, homeScore: 0,
awayScore: 0, timeRemaining: 30}`. -/
def defaultMatchState : MatchState :=
  { status := "waiting", currentQuestion := 0, homeScore := 0,
    awayScore := 0, timeRemaining := 30 }

/-- The whole server state: the storage backend plus the two WebSocket maps
and the closed-socket record. -/
structure ServerState where
  store : LocalData
  matchRooms : List (String × List Nat)
  matchStates : List (String × MatchState)
  closedSockets : List Nat
deriving DecidableEq, Repr

/-- The server state at process start: empty storage, empty maps. -/
def serverStart : ServerState :=
  { store := emptyLocalData, matchRooms := [], matchStates := [], closedSockets := [] }

/-- Messages the server sends over a WebSocket (`JSON.stringify` payloads).
`matchStateFull` is the `join_match` reply `{type: "match_state", ...state}`;
`matchStateLite` is the admin-start broadcast, which carries only `status`
and `currentQuestion`. -/
inductive ServerMsg where
  | matchStateFull (st : MatchState)
  | matchStateLite (status : String) (currentQuestion : Int)
  | answerResult (isCorrect : Bool)
  | scoreUpdate (playerScores : List (String × Int)) (homeScore awayScore : Int)
deriving DecidableEq, Repr

/-- `broadcastToMatch` (`routes.ts` lines 163-173): look the room up, send
the serialized message to every client of the room whose `readyState` is
`WebSocket.OPEN`. `isOpen` is the `readyState === WebSocket.OPEN` test.
Returns the (unchanged) server state and the list of performed sends. -/
def broadcastToMatch (s : ServerState) (isOpen : Nat → Bool) (matchId : String)
    (message : ServerMsg) : ServerState × List (Nat × ServerMsg) :=
  match mapLookup s.matchRooms matchId with
  | some clients => (s, (clients.filter isOpen).map (fun c => (c, message)))
  | none => (s, [])

/-- The `join_match` branch of the connection handler (`routes.ts` lines
78-95): ensure a room exists for the match, add the socket to it, and reply
with the stored match state or the default one. -/
def joinMatchHandler (s : ServerState) (ws : Nat) (matchId : String) :
    ServerState × List (Nat × ServerMsg) :=
  let rooms0 := if (mapLookup s.matchRooms matchId).isNone
    then mapSet s.matchRooms matchId [] else s.matchRooms
  let rooms1 := mapSet rooms0 matchId (setAdd ws ((mapLookup rooms0 matchId).getD []))
  let st := (mapLookup s.matchStates matchId).getD defaultMatchState
  ({ s with matchRooms := rooms1 }, [(ws, .matchStateFull st)])

/-- The fields the `submit_answer` branch destructures from the message. -/
structure SubmitAnswerMsg where
  matchId : String
  userId : String
  questionId : String
  answer : String
  teamId : String
  timeTaken : Option Int
deriving DecidableEq, Repr

/-- The score-aggregation loop of the `submit_answer` branch (`routes.ts`
lines 119-127): walk the answers of the match; a correct answer increments
`homeScore` when its `teamId` is the home team, otherwise increments
`awayScore` when its `teamId` is the away team. -/
def tallyScores (answers : List PlayerAnswer) (homeTeamId awayTeamId : String) :
    Int × Int :=
  answers.foldl
    (fun acc ans =>
      if ans.isCorrect then
        if ans.teamId = homeTeamId then (acc.1 + 1, acc.2)
        else if ans.teamId = awayTeamId then (acc.1, acc.2 + 1)
        else acc
      else acc)
    (0, 0)

/-- The `submit_answer` branch of the connection handler (`routes.ts` lines
97-147): when both the question and the match exist, record the answer,
reply with `answer_result`, recompute the team scores from all answers of
the match, persist them on the match row, mirror them into the in-memory
state when one exists, and broadcast `score_update`; otherwise do nothing. -/
def submitAnswerHandler (s : ServerState) (isOpen : Nat → Bool) (ws : Nat)
    (msg : SubmitAnswerMsg) (newId : String) : ServerState × List (Nat × ServerMsg) :=
  match getQuestion s.store msg.questionId, getMatch s.store msg.matchId with
  | some question, some mtch =>
    let isCorrect := decide (msg.answer = question.correctAnswer)
    let store1 := submitAnswer s.store
      { id := newId, matchId := msg.matchId, questionId := msg.questionId,
        userId := msg.userId, teamId := msg.teamId, answer := some msg.answer,
        isCorrect := isCorrect, timeTaken := msg.timeTaken }
    let reply := (ws, ServerMsg.answerResult isCorrect)
    let answers := getAnswersByMatch store1 msg.matchId
    let scores := tallyScores answers mtch.homeTeamId mtch.awayTeamId
    let store2 := updateMatch store1 msg.matchId
      { homeScore := some scores.1, awayScore := some scores.2 }
    let states' := match mapLookup s.matchStates msg.matchId with
      | some st => mapSet s.matchStates msg.matchId
          { st with homeScore := scores.1, awayScore := scores.2 }
      | none => s.matchStates
    let playerScores := getPlayerScoresByMatch store2 msg.matchId
    let s1 : ServerState := { s with store := store2, matchStates := states' }
    let bc := broadcastToMatch s1 isOpen msg.matchId
      (.scoreUpdate playerScores scores.1 scores.2)
    (bc.1, reply :: bc.2)
  | _, _ => (s, [])

/-- The `close` handler (`routes.ts` lines 153-160): delete the socket from
every room, drop rooms that became empty, and record the socket as closed. -/
def wsCloseHandler (s : ServerState) (ws : Nat) : ServerState :=
  { s with
    matchRooms := (s.matchRooms.map (fun p => (p.1, setDelete ws p.2))).filter
      (fun p => !p.2.isEmpty)
    closedSockets := s.closedSockets ++ [ws] }

/-! ### Route handlers -/

/-- An error reply `res.status(code).json({ message })`. -/
structure ErrResponse where
  status : Nat
  message : String
deriving DecidableEq, Repr

/-- `POST /api/practice/start` (`routes.ts` lines 546-577): reject with
`400 "Insufficient tokens"` when the team is missing or has no token;
otherwise take one token, record a `-1` practice token transaction and
open an active practice session. The questions included in the 200 response
body do not touch the state and are not modelled here. -/
def practiceStartHandler (d : LocalData) (userId teamId ptype : String)
    (txId sessId : String) : LocalData × Except ErrResponse PracticeSession :=
  match getTeam d teamId with
  | none => (d, .error ⟨400, "Insufficient tokens"⟩)
  | some team =>
    if team.practiceTokens < 1 then
      (d, .error ⟨400, "Insufficient tokens"⟩)
    else
      let d1 := updateTeam d teamId { practiceTokens := some (team.practiceTokens - 1) }
      let d2 := createTokenTransaction d1
        { id := txId, teamId := teamId, userId := userId, amount := -1,
          type := "practice", paymentId := none }
      let r3 := createPracticeSession d2 sessId teamId userId ptype "active"
      (r3.1, .ok r3.2)

/-- `POST /api/competitions/:id/register` (`routes.ts` lines 422-488): the
five checks in source order, then payment, registration and zero standing.
`now` is `new Date()`, `reference` the generated payment reference. -/
def competitionRegisterHandler (d : LocalData) (userId competitionId teamId : String)
    (now : Int) (reference payId regId standId : String) :
    LocalData × Except ErrResponse CompetitionRegistration :=
  match getCompetition d competitionId with
  | none => (d, .error ⟨404, "Competition not found"⟩)
  | some competition =>
    if competition.registrationDeadline < now then
      (d, .error ⟨400, "Registration deadline has passed"⟩)
    else if isTeamRegistered d competitionId teamId then
      (d, .error ⟨400, "Team already registered"⟩)
    else if competition.maxTeams ≤ ((getRegisteredTeams d competitionId).length : Int) then
      (d, .error ⟨400, "Competition is full"⟩)
    else if !isTeamMember d teamId userId then
      (d, .error ⟨403, "You are not a member of this team"⟩)
    else
      let d1 := createPayment d
        { id := payId, userId := userId, teamId := some teamId,
          competitionId := some competitionId, amount := competition.registrationFee,
          type := "registration", status := "completed", reference := some reference }
      let reg : CompetitionRegistration :=
        { id := regId, competitionId := competitionId, teamId := teamId,
          paidBy := userId, paymentId := some payId }
      let d2 := registerTeam d1 reg
      let d3 := createStanding d2 (zeroStanding standId competitionId teamId)
      (d3, .ok reg)

/-- `POST /api/admin/matches/:id/start` (`routes.ts` lines 703-730): set the
match row to `status: "live"` with a start time, overwrite the in-memory
state with `{status: "live", currentQuestion: 0, homeScore: 0, awayScore: 0,
timeRemaining: 30}`, and broadcast a lite `match_state`. -/
def adminStartMatchHandler (s : ServerState) (isOpen : Nat → Bool)
    (matchId : String) (now : Int) : ServerState × List (Nat × ServerMsg) :=
  let store' := updateMatch s.store matchId { status := some "live", startedAt := some now }
  let states' := mapSet s.matchStates matchId
    { status := "live", currentQuestion := 0, homeScore := 0, awayScore := 0,
      timeRemaining := 30 }
  let s1 : ServerState := { s with store := store', matchStates := states' }
  broadcastToMatch s1 isOpen matchId (.matchStateLite "live" 0)

/-! ### The transition system

`Op` enumerates every state-writing operation the server exposes: the
Express routes of `registerRoutes`, the WebSocket message branches and the
close handler, plus `createMatch` of the storage interface (the only way a
match row comes into existence; no route creates matches). Read-only
endpoints (`GET` routes, login/logout/me, which write only to the session)
are summarized by `readOnly`. Nondeterministic inputs (generated ids,
bcrypt results, clock reads, request bodies) are constructor parameters. -/

/-- The insert type of `competitions` (`insertCompetitionSchema` omits `id`,
`createdAt` and `isActive`). -/
structure InsertCompetition where
  name : String
  description : Option String
  registrationFee : String
  maxTeams : Int
  startDate : Int
  endDate : Int
  registrationDeadline : Int
deriving DecidableEq, Repr

/-- The insert type of `questions` (`insertQuestionSchema` omits `id` and
`createdAt`). -/
structure InsertQuestion where
  competitionId : Option String
  questionText : String
  optionA : String
  optionB : String
  optionC : String
  optionD : String
  correctAnswer : String
  subject : String
  difficulty : String
  mode : String
  timeLimit : Int
deriving DecidableEq, Repr

/-- One server operation. -/
inductive Op where
  /-- `POST /api/auth/register`. -/
  | authRegister (email username hashedPassword role newId : String)
  /-- `PATCH /api/auth/profile`. -/
  | authProfile (userId : String) (username email : Option String)
  /-- `POST /api/auth/change-password`; `validPassword` is the bcrypt compare. -/
  | changePassword (userId : String) (validPassword : Bool) (newHash : String)
  /-- `POST /api/teams`. -/
  | createTeamRoute (userId name : String) (description : Option String)
      (teamId memberId : String)
  /-- `POST /api/teams/:id/invite`. -/
  | teamInvite (userId teamId email invId : String) (expiresAt : Int)
  /-- `POST /api/competitions/:id/register`. -/
  | competitionRegister (userId competitionId teamId : String) (now : Int)
      (reference payId regId standId : String)
  /-- `POST /api/practice/start`. -/
  | practiceStart (userId teamId ptype txId sessId : String)
  /-- `POST /api/practice/answer`. -/
  | practiceAnswer (sessionId questionId answer : String)
  /-- `POST /api/payments/tokens`. -/
  | paymentsTokens (userId teamId : String) (amount : Int)
      (reference payId txId : String)
  /-- `POST /api/admin/competitions`. -/
  | adminCreateCompetition (ins : InsertCompetition) (newId : String)
  /-- `POST /api/admin/questions`. -/
  | adminCreateQuestion (ins : InsertQuestion) (newId : String)
  /-- `POST /api/admin/matches/:id/start`. -/
  | adminStartMatch (matchId : String) (now : Int)
  /-- `createMatch` of the storage interface (no route calls it; match rows
  are provisioned by tooling through the storage layer). -/
  | storageCreateMatch (ins : InsertMatch) (newId : String)
  /-- WebSocket `join_match` message. -/
  | wsJoin (ws : Nat) (matchId : String)
  /-- WebSocket `submit_answer` message. -/
  | wsSubmit (ws : Nat) (msg : SubmitAnswerMsg) (newId : String)
  /-- WebSocket `close` event. -/
  | wsClose (ws : Nat)
  /-- Any read-only endpoint: `GET` routes, login, logout, me. -/
  | readOnly

/-- The state transition of one operation. Replies and broadcasts only
produce outbound messages, so the WebSocket cases take the first component
of their handler (whose state part does not depend on the readyState
oracle). -/
def applyOp (op : Op) (s : ServerState) : ServerState :=
  match op with
  | .authRegister email username hashedPassword role newId =>
    if (getUserByEmail s.store email).isSome then s
    else if (getUserByUsername s.store username).isSome then s
    else
      let u : User :=
        { id := newId, email := email, username := username,
          password := hashedPassword, role := role }
      { s with store := createUser s.store u }
  | .authProfile userId username email =>
    { s with store := updateUser s.store userId ⟨username, email, none⟩ }
  | .changePassword userId validPassword newHash =>
    match getUser s.store userId with
    | none => s
    | some u =>
      if validPassword then
        { s with store := updateUser s.store u.id ⟨none, none, some newHash⟩ }
      else s
  | .createTeamRoute userId name description teamId memberId =>
    let store1 := createTeam s.store teamId name description userId
    let store2 := addTeamMember store1 { id := memberId, teamId := teamId, userId := userId }
    { s with store := store2 }
  | .teamInvite userId teamId email invId expiresAt =>
    if 5 ≤ (getTeamMembers s.store teamId).length then s
    else { s with store := createInvitation s.store invId teamId email userId expiresAt }
  | .competitionRegister userId competitionId teamId now reference payId regId standId =>
    { s with store :=
        (competitionRegisterHandler s.store userId competitionId teamId now
          reference payId regId standId).1 }
  | .practiceStart userId teamId ptype txId sessId =>
    { s with store := (practiceStartHandler s.store userId teamId ptype txId sessId).1 }
  | .practiceAnswer sessionId questionId answer =>
    match getQuestion s.store questionId with
    | none => s
    | some q =>
      let isCorrect := decide (answer = q.correctAnswer)
      match getPracticeSession s.store sessionId with
      | some sess =>
        let p : PracticeSessionPatch :=
          { score := some (sess.score + if isCorrect then 1 else 0),
            totalQuestions := some (sess.totalQuestions + 1) }
        { s with store := updatePracticeSession s.store sessionId p }
      | none => s
  | .paymentsTokens userId teamId amount reference payId txId =>
    let pay : Payment :=
      { id := payId, userId := userId, teamId := some teamId, competitionId := none,
        amount := toString (amount * 2), type := "tokens", status := "completed",
        reference := some reference }
    let store1 := createPayment s.store pay
    match getTeam store1 teamId with
    | some team =>
      let store2 := updateTeam store1 teamId ⟨some (team.practiceTokens + amount)⟩
      let tx : TokenTransaction :=
        { id := txId, teamId := teamId, userId := userId, amount := amount,
          type := "purchase", paymentId := some payId }
      let store3 := createTokenTransaction store2 tx
      { s with store := store3 }
    | none => { s with store := store1 }
  | .adminCreateCompetition ins newId =>
    let c : Competition :=
      { id := newId, name := ins.name, description := ins.description,
        registrationFee := ins.registrationFee, maxTeams := ins.maxTeams,
        startDate := ins.startDate, endDate := ins.endDate,
        registrationDeadline := ins.registrationDeadline, isActive := true }
    { s with store := createCompetition s.store c }
  | .adminCreateQuestion ins newId =>
    let q : Question :=
      { id := newId, competitionId := ins.competitionId,
        questionText := ins.questionText, optionA := ins.optionA,
        optionB := ins.optionB, optionC := ins.optionC, optionD := ins.optionD,
        correctAnswer := ins.correctAnswer, subject := ins.subject,
        difficulty := ins.difficulty, mode := ins.mode, timeLimit := ins.timeLimit }
    { s with store := createQuestion s.store q }
  | .adminStartMatch matchId now =>
    (adminStartMatchHandler s (fun _ => true) matchId now).1
  | .storageCreateMatch ins newId =>
    { s with store := createMatch s.store ins newId }
  | .wsJoin ws matchId => (joinMatchHandler s ws matchId).1
  | .wsSubmit ws msg newId => (submitAnswerHandler s (fun _ => true) ws msg newId).1
  | .wsClose ws => wsCloseHandler s ws
  | .readOnly => s

/-- Runtime side condition of an operation: WebSocket events of a socket
can only occur before its `close` event (the `ws` runtime fires `close`
last). All other operations are unrestricted. -/
def OpOk : Op → ServerState → Prop
  | .wsJoin ws _, s => ws ∉ s.closedSockets
  | .wsSubmit ws _ _, s => ws ∉ s.closedSockets
  | .wsClose ws, s => ws ∉ s.closedSockets
  | _, _ => True

/-- States the server can reach from process start. -/
inductive Reachable : ServerState → Prop where
  | start : Reachable serverStart
  | step (op : Op) (s : ServerState) (hs : Reachable s) (hok : OpOk op s) :
      Reachable (applyOp op s)

/-! ### Helper lemmas on the map, set and store primitives -/

theorem find?_updateById (l : List α) (idOf : α → String) (id : String) (f : α → α)
    (hf : ∀ x, idOf (f x) = idOf x) :
    (updateById l idOf id f).find? (fun x => decide (idOf x = id)) =
      (l.find? (fun x => decide (idOf x = id))).map f := by
  induction l with
  | nil => rfl
  | cons x xs ih =>
    by_cases h : idOf x = id
    · rw [updateById, List.map_cons, if_pos h]
      rw [List.find?_cons_of_pos _ (by simp [hf, h]),
        List.find?_cons_of_pos _ (by simp [h])]
      rfl
    · rw [updateById, List.map_cons, if_neg h]
      rw [List.find?_cons_of_neg _ (by simp [h]),
        List.find?_cons_of_neg _ (by simp [h])]
      exact ih

theorem mapLookup_nil (k : String) : mapLookup ([] : List (String × α)) k = none := rfl

theorem mapLookup_cons (p : String × α) (rest : List (String × α)) (k : String) :
    mapLookup (p :: rest) k = if p.1 = k then some p.2 else mapLookup rest k := by
  unfold mapLookup
  by_cases h : p.1 = k <;> simp [List.find?_cons, h]

theorem mapSet_cons (p : String × α) (rest : List (String × α)) (k : String) (v : α) :
    mapSet (p :: rest) k v =
      if p.1 = k then (k, v) :: rest else p :: mapSet rest k v := rfl

theorem mapLookup_mapSet_self (l : List (String × α)) (k : String) (v : α) :
    mapLookup (mapSet l k v) k = some v := by
  induction l with
  | nil => simp [mapSet, mapLookup_cons]
  | cons p rest ih =>
    by_cases h : p.1 = k
    · simp [mapSet_cons, h, mapLookup_cons]
    · simp [mapSet_cons, h, mapLookup_cons, ih]

theorem mapLookup_mapSet_other (l : List (String × α)) (k k' : String) (v : α)
    (h : k' ≠ k) : mapLookup (mapSet l k v) k' = mapLookup l k' := by
  induction l with
  | nil => simp [mapSet, mapLookup_cons, mapLookup_nil, Ne.symm h]
  | cons p rest ih =>
    by_cases hp : p.1 = k
    · have hp' : ¬ p.1 = k' := fun e => h (e ▸ hp)
      simp [mapSet_cons, hp, mapLookup_cons, Ne.symm h, hp']
    · simp [mapSet_cons, hp, mapLookup_cons, ih]

theorem mapSet_self_of_lookup (l : List (String × α)) (k : String) (v : α)
    (h : mapLookup l k = some v) : mapSet l k v = l := by
  induction l with
  | nil => simp [mapLookup_nil] at h
  | cons p rest ih =>
    obtain ⟨pk, pv⟩ := p
    rw [mapLookup_cons] at h
    by_cases hp : pk = k
    · rw [if_pos hp] at h
      have hv : pv = v := by simpa using h
      subst hp
      subst hv
      simp [mapSet_cons]
    · rw [if_neg hp] at h
      simp [mapSet_cons, hp, ih h]

theorem mapSet_append_of_lookup_none (l : List (String × α)) (k : String) (v : α)
    (h : mapLookup l k = none) : mapSet l k v = l ++ [(k, v)] := by
  induction l with
  | nil => rfl
  | cons p rest ih =>
    rw [mapLookup_cons] at h
    by_cases hp : p.1 = k
    · rw [if_pos hp] at h
      exact absurd h (by simp)
    · rw [if_neg hp] at h
      simp [mapSet_cons, hp, ih h]

theorem mem_mapSet (l : List (String × α)) (k : String) (v : α) (p : String × α)
    (h : p ∈ mapSet l k v) : p = (k, v) ∨ p ∈ l := by
  induction l with
  | nil => simpa [mapSet] using h
  | cons q rest ih =>
    rw [mapSet_cons] at h
    by_cases hq : q.1 = k
    · rw [if_pos hq] at h
      rcases List.mem_cons.mp h with h' | h'
      · exact Or.inl h'
      · exact Or.inr (List.mem_cons_of_mem _ h')
    · rw [if_neg hq] at h
      rcases List.mem_cons.mp h with h' | h'
      · exact Or.inr (h' ▸ List.mem_cons_self _ _)
      · rcases ih h' with h'' | h''
        · exact Or.inl h''
        · exact Or.inr (List.mem_cons_of_mem _ h'')

theorem mem_of_mapLookup (l : List (String × α)) (k : String) (v : α)
    (h : mapLookup l k = some v) : (k, v) ∈ l := by
  unfold mapLookup at h
  cases hf : l.find? (fun p => decide (p.1 = k)) with
  | none => simp [hf] at h
  | some q =>
    have hq : q ∈ l := List.mem_of_find?_eq_some hf
    have h1 : q.1 = k := by simpa using List.find?_some hf
    have h2 : q.2 = v := by simpa [hf] using h
    have hqe : q = (k, v) := Prod.ext h1 h2
    exact hqe ▸ hq

theorem mem_setAdd (x y : Nat) (l : List Nat) (h : y ∈ setAdd x l) :
    y = x ∨ y ∈ l := by
  by_cases hc : x ∈ l
  · simp only [setAdd, if_pos hc] at h
    exact Or.inr h
  · simp only [setAdd, if_neg hc] at h
    rcases List.mem_append.mp h with h' | h'
    · exact Or.inr h'
    · exact Or.inl (List.mem_singleton.mp h')

theorem setAdd_ne_nil (x : Nat) (l : List Nat) : setAdd x l ≠ [] := by
  by_cases hc : x ∈ l
  · simp only [setAdd, if_pos hc]
    exact List.ne_nil_of_mem hc
  · simp [setAdd, if_neg hc]

theorem self_mem_setAdd (x : Nat) (l : List Nat) : x ∈ setAdd x l := by
  by_cases hc : x ∈ l
  · simpa [setAdd, if_pos hc] using hc
  · simp [setAdd, if_neg hc]

theorem setAdd_of_mem (x : Nat) (l : List Nat) (h : x ∈ l) : setAdd x l = l := by
  simp [setAdd, h]

theorem mem_setDelete (x y : Nat) (l : List Nat) :
    y ∈ setDelete x l ↔ y ∈ l ∧ y ≠ x := by
  simp [setDelete, List.mem_filter]

/-- `broadcastToMatch` never changes the server state. -/
theorem broadcastToMatch_fst (s : ServerState) (isOpen : Nat → Bool)
    (matchId : String) (message : ServerMsg) :
    (broadcastToMatch s isOpen matchId message).1 = s := by
  unfold broadcastToMatch
  cases mapLookup s.matchRooms matchId <;> rfl

theorem getMatch_updateMatch (d : LocalData) (id : String) (p : MatchPatch) :
    getMatch (updateMatch d id p) id = (getMatch d id).map (·.applyPatch p) := by
  unfold getMatch updateMatch
  exact find?_updateById _ _ _ _ (fun _ => rfl)

theorem getTeam_updateTeam (d : LocalData) (id : String) (p : TeamPatch) :
    getTeam (updateTeam d id p) id = (getTeam d id).map (·.applyPatch p) := by
  unfold getTeam updateTeam
  exact find?_updateById _ _ _ _ (fun _ => rfl)

theorem getAnswersByMatch_submitAnswer (d : LocalData) (a : PlayerAnswer)
    (mid : String) :
    getAnswersByMatch (submitAnswer d a) mid =
      getAnswersByMatch d mid ++ (if a.matchId = mid then [a] else []) := by
  unfold getAnswersByMatch submitAnswer
  by_cases h : a.matchId = mid <;> simp [List.filter_append, h]

theorem mapSet_mapSet (l : List (String × α)) (k : String) (v v' : α) :
    mapSet (mapSet l k v) k v' = mapSet l k v' := by
  induction l with
  | nil => simp [mapSet]
  | cons p rest ih =>
    by_cases hp : p.1 = k
    · simp [mapSet_cons, hp]
    · simp [mapSet_cons, hp, ih]

theorem setAdd_idem (x : Nat) (l : List Nat) : setAdd x (setAdd x l) = setAdd x l :=
  setAdd_of_mem _ _ (self_mem_setAdd x l)

/-- Normal form of the `join_match` branch: the room map gets the socket
added to the (possibly fresh) room of the match, and the reply carries the
stored state or the default one. -/
theorem joinMatchHandler_eq (s : ServerState) (ws : Nat) (matchId : String) :
    joinMatchHandler s ws matchId =
      ({ s with matchRooms := (mapSet s.matchRooms matchId
          (setAdd ws ((mapLookup s.matchRooms matchId).getD []))) },
       [(ws, .matchStateFull ((mapLookup s.matchStates matchId).getD defaultMatchState))]) := by
  unfold joinMatchHandler
  cases h : mapLookup s.matchRooms matchId with
  | none => simp [h, mapLookup_mapSet_self, mapSet_mapSet]
  | some r => simp [h]

/-! ### Claim-language score counts -/

/-- The count the claim sentences speak about: correct recorded answers of
the match that belong to the given team. -/
def countCorrectFor (answers : List PlayerAnswer) (teamId : String) : Nat :=
  (answers.filter (fun x => x.isCorrect && decide (x.teamId = teamId))).length

/-- What the `else if` branch of the aggregation loop actually counts for
the away side: correct answers of the away team that are not answers of the
home team. -/
def countCorrectAwayOnly (answers : List PlayerAnswer)
    (homeTeamId awayTeamId : String) : Nat :=
  (answers.filter (fun x =>
    x.isCorrect && !(decide (x.teamId = homeTeamId)) &&
      decide (x.teamId = awayTeamId))).length

theorem tallyScores_foldl (l : List PlayerAnswer) (h a : String) (acc : Int × Int) :
    l.foldl
      (fun acc ans =>
        if ans.isCorrect then
          if ans.teamId = h then (acc.1 + 1, acc.2)
          else if ans.teamId = a then (acc.1, acc.2 + 1)
          else acc
        else acc)
      acc =
      (acc.1 + (countCorrectFor l h : Int), acc.2 + (countCorrectAwayOnly l h a : Int)) := by
  induction l generalizing acc with
  | nil => simp [countCorrectFor, countCorrectAwayOnly]
  | cons x xs ih =>
    rw [List.foldl_cons, ih]
    by_cases hc : x.isCorrect
    · by_cases hh : x.teamId = h
      · have h1 : countCorrectFor (x :: xs) h = countCorrectFor xs h + 1 := by
          simp [countCorrectFor, List.filter_cons, hc, hh, Nat.add_comm]
        have h2 : countCorrectAwayOnly (x :: xs) h a = countCorrectAwayOnly xs h a := by
          simp [countCorrectAwayOnly, List.filter_cons, hc, hh]
        rw [if_pos hc, if_pos hh, h1, h2]
        refine Prod.ext ?_ ?_ <;> push_cast <;> ring
      · by_cases ha : x.teamId = a
        · have hah : ¬ a = h := fun e => hh (ha.trans e)
          have h1 : countCorrectFor (x :: xs) h = countCorrectFor xs h := by
            simp [countCorrectFor, List.filter_cons, hh]
          have h2 : countCorrectAwayOnly (x :: xs) h a = countCorrectAwayOnly xs h a + 1 := by
            simp [countCorrectAwayOnly, List.filter_cons, hc, hh, ha, hah, Nat.add_comm]
          rw [if_pos hc, if_neg hh, if_pos ha, h1, h2]
          refine Prod.ext ?_ ?_ <;> push_cast <;> ring
        · have h1 : countCorrectFor (x :: xs) h = countCorrectFor xs h := by
            simp [countCorrectFor, List.filter_cons, hh]
          have h2 : countCorrectAwayOnly (x :: xs) h a = countCorrectAwayOnly xs h a := by
            simp [countCorrectAwayOnly, List.filter_cons, ha]
          rw [if_pos hc, if_neg hh, if_neg ha, h1, h2]
    · have h1 : countCorrectFor (x :: xs) h = countCorrectFor xs h := by
        simp [countCorrectFor, List.filter_cons, hc]
      have h2 : countCorrectAwayOnly (x :: xs) h a = countCorrectAwayOnly xs h a := by
        simp [countCorrectAwayOnly, List.filter_cons, hc]
      rw [if_neg hc, h1, h2]

theorem tallyScores_eq (l : List PlayerAnswer) (h a : String) :
    tallyScores l h a =
      ((countCorrectFor l h : Int), (countCorrectAwayOnly l h a : Int)) := by
  unfold tallyScores
  rw [tallyScores_foldl]
  simp

theorem countCorrectAwayOnly_of_ne (l : List PlayerAnswer) (h a : String)
    (hne : h ≠ a) : countCorrectAwayOnly l h a = countCorrectFor l a := by
  unfold countCorrectAwayOnly countCorrectFor
  congr 1
  apply List.filter_congr
  intro x _
  by_cases hc : x.isCorrect
  · by_cases ha' : x.teamId = a
    · have hxh : ¬ x.teamId = h := fun e => hne (e.symm.trans ha')
      have hah : ¬ a = h := fun e => hne e.symm
      simp [hc, ha', hxh, hah]
    · simp [hc, ha']
  · simp [hc]

/-! ### The claims -/

/-- **C5**: for every match ID and message, `broadcastToMatch` sends the
message exactly to the connections of the room of that match ID whose
readyState is OPEN — a connection receives the message if and only if it is
an open member of that room, so no connection of any other room receives
anything — and it leaves the whole server state (rooms and match states)
unchanged. -/
theorem broadcastToMatch_exact_recipients (s : ServerState) (isOpen : Nat → Bool)
    (matchId : String) (message : ServerMsg) :
    (∀ c m', (c, m') ∈ (broadcastToMatch s isOpen matchId message).2 ↔
      (m' = message ∧ ∃ room, mapLookup s.matchRooms matchId = some room ∧
        c ∈ room ∧ isOpen c = true)) ∧
    (broadcastToMatch s isOpen matchId message).1 = s := by
  refine ⟨?_, broadcastToMatch_fst s isOpen matchId message⟩
  intro c m'
  unfold broadcastToMatch
  cases hr : mapLookup s.matchRooms matchId with
  | none => simp
  | some room =>
    simp only [List.mem_map, List.mem_filter]
    constructor
    · rintro ⟨x, ⟨hx, hox⟩, he⟩
      cases he
      exact ⟨rfl, room, rfl, hx, hox⟩
    · rintro ⟨rfl, room', hsome, hcr, hoc⟩
      cases Option.some.inj hsome
      exact ⟨c, ⟨hcr, hoc⟩, rfl⟩

/-- **C9**: a `join_match` message adds the socket to the room of the given
match ID (creating the room when absent), changes no other room, replies to
that socket with a `match_state` message carrying the stored in-memory state
or, when none is recorded, the default state — without storing the default —
and re-joining the same match leaves the room map unchanged. -/
theorem joinMatch_spec (s : ServerState) (ws : Nat) (matchId : String) :
    mapLookup (joinMatchHandler s ws matchId).1.matchRooms matchId =
      some (setAdd ws ((mapLookup s.matchRooms matchId).getD [])) ∧
    (∀ mid, mid ≠ matchId →
      mapLookup (joinMatchHandler s ws matchId).1.matchRooms mid =
        mapLookup s.matchRooms mid) ∧
    (joinMatchHandler s ws matchId).2 =
      [(ws, .matchStateFull ((mapLookup s.matchStates matchId).getD defaultMatchState))] ∧
    (joinMatchHandler s ws matchId).1.matchStates = s.matchStates ∧
    (joinMatchHandler s ws matchId).1.store = s.store ∧
    (joinMatchHandler (joinMatchHandler s ws matchId).1 ws matchId).1.matchRooms =
      (joinMatchHandler s ws matchId).1.matchRooms := by
  rw [joinMatchHandler_eq s ws matchId]
  refine ⟨mapLookup_mapSet_self .., fun mid hmid => mapLookup_mapSet_other _ _ _ _ hmid,
    rfl, rfl, rfl, ?_⟩
  rw [joinMatchHandler_eq]
  simp only [mapLookup_mapSet_self, Option.getD_some, setAdd_idem, mapSet_mapSet]

theorem getMatch_submitAnswer (d : LocalData) (a : PlayerAnswer) (id : String) :
    getMatch (submitAnswer d a) id = getMatch d id := rfl

theorem getAnswersByMatch_updateMatch (d : LocalData) (id : String) (p : MatchPatch)
    (mid : String) :
    getAnswersByMatch (updateMatch d id p) mid = getAnswersByMatch d mid := rfl

/-- The answer row the `submit_answer` branch records. -/
def recordedAnswer (msg : SubmitAnswerMsg) (q : Question) (newId : String) :
    PlayerAnswer :=
  { id := newId, matchId := msg.matchId, questionId := msg.questionId,
    userId := msg.userId, teamId := msg.teamId, answer := some msg.answer,
    isCorrect := decide (msg.answer = q.correctAnswer), timeTaken := msg.timeTaken }

/-- Normal form of the `submit_answer` branch when both lookups succeed. -/
theorem submitAnswerHandler_found (s : ServerState) (isOpen : Nat → Bool) (ws : Nat)
    (msg : SubmitAnswerMsg) (newId : String) (q : Question) (m : GameMatch)
    (hq : getQuestion s.store msg.questionId = some q)
    (hm : getMatch s.store msg.matchId = some m) :
    submitAnswerHandler s isOpen ws msg newId =
      (let store1 := submitAnswer s.store (recordedAnswer msg q newId)
       let scores := tallyScores (getAnswersByMatch store1 msg.matchId)
         m.homeTeamId m.awayTeamId
       let store2 := updateMatch store1 msg.matchId
         { homeScore := some scores.1, awayScore := some scores.2 }
       let states' := match mapLookup s.matchStates msg.matchId with
         | some st => mapSet s.matchStates msg.matchId
             { st with homeScore := scores.1, awayScore := scores.2 }
         | none => s.matchStates
       let s1 : ServerState := { s with store := store2, matchStates := states' }
       (s1, (ws, ServerMsg.answerResult (decide (msg.answer = q.correctAnswer))) ::
         (broadcastToMatch s1 isOpen msg.matchId
           (.scoreUpdate (getPlayerScoresByMatch store2 msg.matchId)
             scores.1 scores.2)).2)) := by
  unfold submitAnswerHandler
  rw [hq, hm]
  simp only [recordedAnswer, broadcastToMatch_fst]

/-- **C8**: when the question and the match of a `submit_answer` message both
exist, the recorded answer row and the `answer_result` reply both carry
`isCorrect` true exactly when the submitted answer string equals the
question's `correctAnswer`; when either lookup fails, nothing is recorded,
nothing is sent, and the state is unchanged. -/
theorem submitAnswer_isCorrect_spec :
    (∀ (s : ServerState) (isOpen : Nat → Bool) (ws : Nat) (msg : SubmitAnswerMsg)
       (newId : String) (q : Question) (m : GameMatch),
       getQuestion s.store msg.questionId = some q →
       getMatch s.store msg.matchId = some m →
       (submitAnswerHandler s isOpen ws msg newId).1.store.playerAnswers =
         s.store.playerAnswers ++ [recordedAnswer msg q newId] ∧
       (submitAnswerHandler s isOpen ws msg newId).2.head? =
         some (ws, .answerResult (decide (msg.answer = q.correctAnswer))) ∧
       ((recordedAnswer msg q newId).isCorrect = true ↔
         msg.answer = q.correctAnswer)) ∧
    (∀ (s : ServerState) (isOpen : Nat → Bool) (ws : Nat) (msg : SubmitAnswerMsg)
       (newId : String),
       getQuestion s.store msg.questionId = none ∨
         getMatch s.store msg.matchId = none →
       submitAnswerHandler s isOpen ws msg newId = (s, [])) := by
  constructor
  · intro s isOpen ws msg newId q m hq hm
    rw [submitAnswerHandler_found s isOpen ws msg newId q m hq hm]
    refine ⟨?_, rfl, by simp [recordedAnswer]⟩
    simp [updateMatch, submitAnswer]
  · intro s isOpen ws msg newId h
    rcases h with h | h
    · unfold submitAnswerHandler
      rw [h]
    · unfold submitAnswerHandler
      rw [h]
      cases getQuestion s.store msg.questionId <;> rfl

/-- **C1** (amended): for a `submit_answer` message whose question and match
exist, and whose match has distinct home and away team ids, the handler
leaves the match row with `homeScore` equal to the number of correct
recorded answers of the match belonging to the home team and `awayScore`
equal to the number belonging to the away team, and broadcasts exactly these
two values in the `score_update` message. (When the two team ids coincide,
the `else if` of the aggregation loop credits every correct answer to
`homeScore`; see the counterexample.) -/
theorem submitAnswer_scores_spec (s : ServerState) (isOpen : Nat → Bool) (ws : Nat)
    (msg : SubmitAnswerMsg) (newId : String) (q : Question) (m : GameMatch)
    (hq : getQuestion s.store msg.questionId = some q)
    (hm : getMatch s.store msg.matchId = some m)
    (hne : m.homeTeamId ≠ m.awayTeamId) :
    ∃ m', getMatch (submitAnswerHandler s isOpen ws msg newId).1.store msg.matchId =
        some m' ∧
      m'.homeScore = (countCorrectFor
        (getAnswersByMatch (submitAnswerHandler s isOpen ws msg newId).1.store
          msg.matchId) m.homeTeamId : Int) ∧
      m'.awayScore = (countCorrectFor
        (getAnswersByMatch (submitAnswerHandler s isOpen ws msg newId).1.store
          msg.matchId) m.awayTeamId : Int) ∧
      ∃ ps, (submitAnswerHandler s isOpen ws msg newId).2 =
        (ws, .answerResult (decide (msg.answer = q.correctAnswer))) ::
          (broadcastToMatch (submitAnswerHandler s isOpen ws msg newId).1 isOpen
            msg.matchId (.scoreUpdate ps m'.homeScore m'.awayScore)).2 := by
  rw [submitAnswerHandler_found s isOpen ws msg newId q m hq hm]
  simp only []
  set store1 := submitAnswer s.store (recordedAnswer msg q newId) with hstore1
  set answers := getAnswersByMatch store1 msg.matchId with hanswers
  set scores := tallyScores answers m.homeTeamId m.awayTeamId with hscores
  have hm1 : getMatch store1 msg.matchId = some m := by
    rw [hstore1, getMatch_submitAnswer, hm]
  have hm2 : getMatch (updateMatch store1 msg.matchId
      { homeScore := some scores.1, awayScore := some scores.2 }) msg.matchId =
      some (m.applyPatch { homeScore := some scores.1, awayScore := some scores.2 }) := by
    rw [getMatch_updateMatch, hm1]
    rfl
  have hansw : getAnswersByMatch (updateMatch store1 msg.matchId
      { homeScore := some scores.1, awayScore := some scores.2 }) msg.matchId =
      answers := by
    rw [getAnswersByMatch_updateMatch, hanswers]
  have hscore_eq : scores =
      ((countCorrectFor answers m.homeTeamId : Int),
       (countCorrectFor answers m.awayTeamId : Int)) := by
    rw [hscores, tallyScores_eq, countCorrectAwayOnly_of_ne _ _ _ hne]
  refine ⟨m.applyPatch { homeScore := some scores.1, awayScore := some scores.2 },
    hm2, ?_, ?_, getPlayerScoresByMatch (updateMatch store1 msg.matchId
      { homeScore := some scores.1, awayScore := some scores.2 }) msg.matchId, ?_⟩
  · rw [hansw]
    simp [GameMatch.applyPatch, hscore_eq]
  · rw [hansw]
    simp [GameMatch.applyPatch, hscore_eq]
  · simp [GameMatch.applyPatch]

/-- A sample practice-mode question whose correct answer is `"A"`. -/
def sampleQuestion : Question :=
  { id := "q1", competitionId := none, questionText := "sample",
    optionA := "A", optionB := "B", optionC := "C", optionD := "D",
    correctAnswer := "A", subject := "math", difficulty := "medium",
    mode := "competition", timeLimit := 30 }

/-- A degenerate match row whose home and away team are the same team. -/
def degenerateMatch : GameMatch :=
  { id := "m1", competitionId := "c1", homeTeamId := "t1", awayTeamId := "t1",
    round := 1, scheduledAt := 0, status := "waiting", homeScore := 0,
    awayScore := 0, startedAt := none, completedAt := none }

/-- A server state holding the sample question and the degenerate match. -/
def degenerateState : ServerState :=
  { store := { emptyLocalData with
      questions := [sampleQuestion], gameMatches := [degenerateMatch] },
    matchRooms := [], matchStates := [], closedSockets := [] }

/-- A correct `submit_answer` message for team `"t1"` in the degenerate match. -/
def degenerateMsg : SubmitAnswerMsg :=
  { matchId := "m1", userId := "u1", questionId := "q1", answer := "A",
    teamId := "t1", timeTaken := none }

/-- **C1** (counterexample): in a match whose `homeTeamId` and `awayTeamId`
are both `"t1"`, one correct answer of team `"t1"` leaves the persisted
`awayScore` at `0` although one correct recorded answer belongs to the
match's `awayTeamId` — the claimed equality for `awayScore` fails. -/
theorem submitAnswer_scores_counterexample :
    getQuestion degenerateState.store degenerateMsg.questionId = some sampleQuestion ∧
    getMatch degenerateState.store degenerateMsg.matchId = some degenerateMatch ∧
    (getMatch (submitAnswerHandler degenerateState (fun _ => true) 1 degenerateMsg
        "a1").1.store "m1").map GameMatch.awayScore = some 0 ∧
    countCorrectFor
      (getAnswersByMatch (submitAnswerHandler degenerateState (fun _ => true) 1
        degenerateMsg "a1").1.store "m1") degenerateMatch.awayTeamId = 1 := by
  refine ⟨by decide, by decide, by decide, by decide⟩

/-- **C3**: `POST /api/practice/start` succeeds exactly when the team exists
and has at least one practice token; on success the token count drops by
one, a `-1` practice token transaction is recorded and an active practice
session is created; otherwise the reply is `400 "Insufficient tokens"` and
the store — in particular the team's `practiceTokens` — is unchanged. -/
theorem practiceStart_spec (d : LocalData) (userId teamId ptype txId sessId : String) :
    ((∃ sess, (practiceStartHandler d userId teamId ptype txId sessId).2 = .ok sess) ↔
      (∃ t, getTeam d teamId = some t ∧ 1 ≤ t.practiceTokens)) ∧
    (∀ t, getTeam d teamId = some t → 1 ≤ t.practiceTokens →
      getTeam (practiceStartHandler d userId teamId ptype txId sessId).1 teamId =
        some { t with practiceTokens := t.practiceTokens - 1 } ∧
      (practiceStartHandler d userId teamId ptype txId sessId).1.tokenTransactions =
        d.tokenTransactions ++
          [{ id := txId, teamId := teamId, userId := userId, amount := -1,
             type := "practice", paymentId := none }] ∧
      (practiceStartHandler d userId teamId ptype txId sessId).1.practiceSessions =
        d.practiceSessions ++
          [{ id := sessId, teamId := teamId, userId := userId, type := ptype,
             status := "active", score := 0, totalQuestions := 0 }]) ∧
    ((getTeam d teamId = none ∨
        ∃ t, getTeam d teamId = some t ∧ t.practiceTokens < 1) →
      practiceStartHandler d userId teamId ptype txId sessId =
        (d, .error ⟨400, "Insufficient tokens"⟩)) := by
  cases ht : getTeam d teamId with
  | none =>
    refine ⟨?_, ?_, ?_⟩
    · simp [practiceStartHandler, ht]
    · intro t h
      exact absurd h (by simp)
    · intro _
      simp [practiceStartHandler, ht]
  | some t =>
    by_cases htok : t.practiceTokens < 1
    · refine ⟨?_, ?_, ?_⟩
      · simp only [practiceStartHandler, ht, if_pos htok]
        constructor
        · rintro ⟨sess, hs⟩
          exact absurd hs (by simp)
        · rintro ⟨t', ht', htok'⟩
          cases Option.some.inj ht'
          omega
      · intro t' ht' htok'
        cases Option.some.inj ht'
        omega
      · intro _
        simp [practiceStartHandler, ht, if_pos htok]
    · have htok' : 1 ≤ t.practiceTokens := by omega
      refine ⟨?_, ?_, ?_⟩
      · simp only [practiceStartHandler, ht, if_neg htok]
        constructor
        · intro _
          exact ⟨t, rfl, htok'⟩
        · intro _
          exact ⟨_, rfl⟩
      · intro t' ht'' _
        cases Option.some.inj ht''
        simp only [practiceStartHandler, ht, if_neg htok]
        refine ⟨?_, ?_, ?_⟩
        · have : getTeam (updateTeam d teamId
              { practiceTokens := some (t.practiceTokens - 1) }) teamId =
              some (t.applyPatch { practiceTokens := some (t.practiceTokens - 1) }) := by
            rw [getTeam_updateTeam, ht]
            rfl
          simpa [createTokenTransaction, createPracticeSession, getTeam,
            Team.applyPatch] using this
        · simp [createTokenTransaction, createPracticeSession, updateTeam]
        · simp [createTokenTransaction, createPracticeSession, updateTeam]
      · rintro (h | ⟨t', ht', hlt⟩)
        · exact absurd h (by simp)
        · cases Option.some.inj ht'
          omega

/-- **C10**: `POST /api/competitions/:id/register` creates a registration
exactly when the competition exists, the deadline has not passed, the team
is not already registered, the registration count is below `maxTeams`, and
the requesting user is a member of the team; on success it also records a
completed registration-fee payment and an all-zero standing, and on any
failed check it replies with a 4xx status and leaves the store unchanged. -/
theorem competitionRegister_spec (d : LocalData) (userId competitionId teamId : String)
    (now : Int) (reference payId regId standId : String) :
    ((∃ reg, (competitionRegisterHandler d userId competitionId teamId now reference
        payId regId standId).2 = .ok reg) ↔
      (∃ c, getCompetition d competitionId = some c ∧
        ¬ c.registrationDeadline < now ∧
        isTeamRegistered d competitionId teamId = false ∧
        ((getRegisteredTeams d competitionId).length : Int) < c.maxTeams ∧
        isTeamMember d teamId userId = true)) ∧
    (∀ c, getCompetition d competitionId = some c →
      ¬ c.registrationDeadline < now →
      isTeamRegistered d competitionId teamId = false →
      ((getRegisteredTeams d competitionId).length : Int) < c.maxTeams →
      isTeamMember d teamId userId = true →
      (competitionRegisterHandler d userId competitionId teamId now reference
          payId regId standId).1.payments =
        d.payments ++
          [{ id := payId, userId := userId, teamId := some teamId,
             competitionId := some competitionId, amount := c.registrationFee,
             type := "registration", status := "completed",
             reference := some reference }] ∧
      (competitionRegisterHandler d userId competitionId teamId now reference
          payId regId standId).1.competitionRegistrations =
        d.competitionRegistrations ++
          [{ id := regId, competitionId := competitionId, teamId := teamId,
             paidBy := userId, paymentId := some payId }] ∧
      (competitionRegisterHandler d userId competitionId teamId now reference
          payId regId standId).1.standings =
        d.standings ++ [zeroStanding standId competitionId teamId] ∧
      (competitionRegisterHandler d userId competitionId teamId now reference
          payId regId standId).2 =
        .ok { id := regId, competitionId := competitionId, teamId := teamId,
              paidBy := userId, paymentId := some payId }) ∧
    ((¬ ∃ c, getCompetition d competitionId = some c ∧
        ¬ c.registrationDeadline < now ∧
        isTeamRegistered d competitionId teamId = false ∧
        ((getRegisteredTeams d competitionId).length : Int) < c.maxTeams ∧
        isTeamMember d teamId userId = true) →
      ∃ e, (competitionRegisterHandler d userId competitionId teamId now reference
          payId regId standId).2 = .error e ∧
        400 ≤ e.status ∧ e.status < 500 ∧
        (competitionRegisterHandler d userId competitionId teamId now reference
          payId regId standId).1 = d) := by
  cases hc : getCompetition d competitionId with
  | none =>
    have hh : competitionRegisterHandler d userId competitionId teamId now reference
        payId regId standId = (d, .error ⟨404, "Competition not found"⟩) := by
      simp [competitionRegisterHandler, hc]
    rw [hh]
    refine ⟨by simp [hc], ?_, fun _ => ⟨⟨404, "Competition not found"⟩, rfl, by decide, by decide, rfl⟩⟩
    intro c hc'
    exact absurd hc' (by simp)
  | some c =>
    by_cases h1 : c.registrationDeadline < now
    · have hh : competitionRegisterHandler d userId competitionId teamId now reference
          payId regId standId =
          (d, .error ⟨400, "Registration deadline has passed"⟩) := by
        simp [competitionRegisterHandler, hc, if_pos h1]
      rw [hh]
      refine ⟨?_, ?_, fun _ => ⟨⟨400, "Registration deadline has passed"⟩, rfl, by decide, by decide, rfl⟩⟩
      · constructor
        · rintro ⟨reg, hr⟩
          exact absurd hr (by simp)
        · rintro ⟨c', hc', k1, _⟩
          cases Option.some.inj hc'
          exact absurd h1 k1
      · intro c' hc' k1 _ _ _
        cases Option.some.inj hc'
        exact absurd h1 k1
    · by_cases h2 : isTeamRegistered d competitionId teamId = true
      · have hh : competitionRegisterHandler d userId competitionId teamId now reference
            payId regId standId = (d, .error ⟨400, "Team already registered"⟩) := by
          simp [competitionRegisterHandler, hc, if_neg h1, h2]
        rw [hh]
        refine ⟨?_, ?_, fun _ => ⟨⟨400, "Team already registered"⟩, rfl, by decide, by decide, rfl⟩⟩
        · constructor
          · rintro ⟨reg, hr⟩
            exact absurd hr (by simp)
          · rintro ⟨c', hc', _, k2, _⟩
            cases Option.some.inj hc'
            rw [h2] at k2
            exact absurd k2 (by simp)
        · intro c' hc' _ k2 _ _
          cases Option.some.inj hc'
          rw [h2] at k2
          exact absurd k2 (by simp)
      · have h2' : isTeamRegistered d competitionId teamId = false := by
          simpa using h2
        by_cases h3 : c.maxTeams ≤ ((getRegisteredTeams d competitionId).length : Int)
        · have hh : competitionRegisterHandler d userId competitionId teamId now
              reference payId regId standId =
              (d, .error ⟨400, "Competition is full"⟩) := by
            simp [competitionRegisterHandler, hc, if_neg h1, h2', if_pos h3]
          rw [hh]
          refine ⟨?_, ?_, fun _ => ⟨⟨400, "Competition is full"⟩, rfl, by decide, by decide, rfl⟩⟩
          · constructor
            · rintro ⟨reg, hr⟩
              exact absurd hr (by simp)
            · rintro ⟨c', hc', _, _, k3, _⟩
              cases Option.some.inj hc'
              omega
          · intro c' hc' _ _ k3 _
            cases Option.some.inj hc'
            omega
        · by_cases h4 : isTeamMember d teamId userId = true
          · have hh : competitionRegisterHandler d userId competitionId teamId now
                reference payId regId standId =
                (createStanding (registerTeam (createPayment d
                    { id := payId, userId := userId, teamId := some teamId,
                      competitionId := some competitionId,
                      amount := c.registrationFee, type := "registration",
                      status := "completed", reference := some reference })
                    { id := regId, competitionId := competitionId, teamId := teamId,
                      paidBy := userId, paymentId := some payId })
                  (zeroStanding standId competitionId teamId),
                 .ok { id := regId, competitionId := competitionId, teamId := teamId,
                       paidBy := userId, paymentId := some payId }) := by
              simp [competitionRegisterHandler, hc, if_neg h1, h2', if_neg h3, h4]
            rw [hh]
            refine ⟨?_, ?_, ?_⟩
            · constructor
              · intro _
                exact ⟨c, rfl, h1, h2', by omega, h4⟩
              · intro _
                exact ⟨_, rfl⟩
            · intro c' hc' _ _ _ _
              cases Option.some.inj hc'
              refine ⟨?_, ?_, ?_, rfl⟩ <;>
                simp [createStanding, registerTeam, createPayment]
            · intro hneg
              exact absurd ⟨c, hc, h1, h2', by omega, h4⟩ (hc ▸ hneg)
          · have h4' : isTeamMember d teamId userId = false := by simpa using h4
            have hh : competitionRegisterHandler d userId competitionId teamId now
                reference payId regId standId =
                (d, .error ⟨403, "You are not a member of this team"⟩) := by
              simp [competitionRegisterHandler, hc, if_neg h1, h2', if_neg h3, h4']
            rw [hh]
            refine ⟨?_, ?_, fun _ => ⟨⟨403, "You are not a member of this team"⟩, rfl, by decide, by decide, rfl⟩⟩
            · constructor
              · rintro ⟨reg, hr⟩
                exact absurd hr (by simp)
              · rintro ⟨c', hc', _, _, _, k4⟩
                cases Option.some.inj hc'
                rw [h4'] at k4
                exact absurd k4 (by simp)
            · intro c' hc' _ _ _ k4
              cases Option.some.inj hc'
              rw [h4'] at k4
              exact absurd k4 (by simp)

/-! ### Per-operation component lemmas for the reachability invariants -/

theorem mem_updateById (l : List α) (idOf : α → String) (id : String) (f : α → α)
    (y : α) (hy : y ∈ updateById l idOf id f) : ∃ x ∈ l, y = f x ∨ y = x := by
  unfold updateById at hy
  rcases List.mem_map.mp hy with ⟨x, hx, he⟩
  by_cases h : idOf x = id
  · rw [if_pos h] at he
    exact ⟨x, hx, Or.inl he.symm⟩
  · rw [if_neg h] at he
    exact ⟨x, hx, Or.inr he.symm⟩

theorem practiceStartHandler_components (d : LocalData)
    (userId teamId ptype txId sessId : String) :
    (practiceStartHandler d userId teamId ptype txId sessId).1.standings =
      d.standings ∧
    (practiceStartHandler d userId teamId ptype txId sessId).1.gameMatches =
      d.gameMatches := by
  unfold practiceStartHandler
  cases getTeam d teamId with
  | none => exact ⟨rfl, rfl⟩
  | some t =>
    dsimp only
    by_cases h : t.practiceTokens < 1
    · rw [if_pos h]
      exact ⟨rfl, rfl⟩
    · rw [if_neg h]
      exact ⟨rfl, rfl⟩

theorem competitionRegisterHandler_effects (d : LocalData)
    (userId competitionId teamId : String) (now : Int)
    (reference payId regId standId : String) :
    ((competitionRegisterHandler d userId competitionId teamId now reference payId
        regId standId).1.standings = d.standings ∨
      (competitionRegisterHandler d userId competitionId teamId now reference payId
        regId standId).1.standings =
        d.standings ++ [zeroStanding standId competitionId teamId]) ∧
    (competitionRegisterHandler d userId competitionId teamId now reference payId
        regId standId).1.gameMatches = d.gameMatches := by
  unfold competitionRegisterHandler
  cases getCompetition d competitionId with
  | none => exact ⟨Or.inl rfl, rfl⟩
  | some c =>
    dsimp only
    by_cases h1 : c.registrationDeadline < now
    · rw [if_pos h1]
      exact ⟨Or.inl rfl, rfl⟩
    · rw [if_neg h1]
      by_cases h2 : isTeamRegistered d competitionId teamId = true
      · rw [if_pos h2]
        exact ⟨Or.inl rfl, rfl⟩
      · rw [if_neg h2]
        by_cases h3 : c.maxTeams ≤ ((getRegisteredTeams d competitionId).length : Int)
        · rw [if_pos h3]
          exact ⟨Or.inl rfl, rfl⟩
        · rw [if_neg h3]
          by_cases h4 : isTeamMember d teamId userId = true
          · rw [if_neg (show ¬ ((!isTeamMember d teamId userId) = true) by simp [h4])]
            exact ⟨Or.inr (by simp [createStanding, registerTeam, createPayment]), rfl⟩
          · rw [if_pos (show (!isTeamMember d teamId userId) = true by simp
              [Bool.eq_false_iff.mpr (fun e => h4 e)])]
            exact ⟨Or.inl rfl, rfl⟩

theorem submitAnswerHandler_components (s : ServerState) (isOpen : Nat → Bool)
    (ws : Nat) (msg : SubmitAnswerMsg) (newId : String) :
    (submitAnswerHandler s isOpen ws msg newId).1.store.standings =
      s.store.standings ∧
    (submitAnswerHandler s isOpen ws msg newId).1.matchRooms = s.matchRooms ∧
    (submitAnswerHandler s isOpen ws msg newId).1.closedSockets =
      s.closedSockets := by
  cases hq : getQuestion s.store msg.questionId with
  | none =>
    unfold submitAnswerHandler
    rw [hq]
    exact ⟨rfl, rfl, rfl⟩
  | some q =>
    cases hm : getMatch s.store msg.matchId with
    | none =>
      unfold submitAnswerHandler
      rw [hq, hm]
      exact ⟨rfl, rfl, rfl⟩
    | some m =>
      rw [submitAnswerHandler_found s isOpen ws msg newId q m hq hm]
      exact ⟨rfl, rfl, rfl⟩

/-- Every match row after a `submit_answer` has the status of a row that was
already in the store (the score patch does not touch `status`). -/
theorem submitAnswerHandler_gameMatches (s : ServerState) (isOpen : Nat → Bool)
    (ws : Nat) (msg : SubmitAnswerMsg) (newId : String) (m' : GameMatch)
    (hm' : m' ∈ (submitAnswerHandler s isOpen ws msg newId).1.store.gameMatches) :
    ∃ m ∈ s.store.gameMatches, m'.status = m.status := by
  cases hq : getQuestion s.store msg.questionId with
  | none =>
    unfold submitAnswerHandler at hm'
    rw [hq] at hm'
    exact ⟨m', hm', rfl⟩
  | some q =>
    cases hm : getMatch s.store msg.matchId with
    | none =>
      unfold submitAnswerHandler at hm'
      rw [hq, hm] at hm'
      exact ⟨m', hm', rfl⟩
    | some m =>
      rw [submitAnswerHandler_found s isOpen ws msg newId q m hq hm] at hm'
      simp only [updateMatch, submitAnswer] at hm'
      rcases mem_updateById _ _ _ _ _ hm' with ⟨x, hx, hcase⟩
      rcases hcase with h | h
      · exact ⟨x, hx, by rw [h]; rfl⟩
      · exact ⟨x, hx, by rw [h]⟩

/-- Every in-memory match state after a `submit_answer` either was already
stored or is a stored state with only the two scores replaced. -/
theorem submitAnswerHandler_matchStates (s : ServerState) (isOpen : Nat → Bool)
    (ws : Nat) (msg : SubmitAnswerMsg) (newId : String) (p : String × MatchState)
    (hp : p ∈ (submitAnswerHandler s isOpen ws msg newId).1.matchStates) :
    p ∈ s.matchStates ∨ ∃ st, (msg.matchId, st) ∈ s.matchStates ∧
      p.2.status = st.status ∧ p.2.currentQuestion = st.currentQuestion := by
  cases hq : getQuestion s.store msg.questionId with
  | none =>
    unfold submitAnswerHandler at hp
    rw [hq] at hp
    exact Or.inl hp
  | some q =>
    cases hm : getMatch s.store msg.matchId with
    | none =>
      unfold submitAnswerHandler at hp
      rw [hq, hm] at hp
      exact Or.inl hp
    | some m =>
      rw [submitAnswerHandler_found s isOpen ws msg newId q m hq hm] at hp
      simp only at hp
      cases hst : mapLookup s.matchStates msg.matchId with
      | none =>
        rw [hst] at hp
        exact Or.inl hp
      | some st =>
        rw [hst] at hp
        rcases mem_mapSet _ _ _ _ hp with h | h
        · exact Or.inr ⟨st, mem_of_mapLookup _ _ _ hst, by rw [h], by rw [h]⟩
        · exact Or.inl h

/-- Normal form of the state part of the admin match-start handler. -/
theorem adminStartMatchHandler_fst (s : ServerState) (isOpen : Nat → Bool)
    (matchId : String) (now : Int) :
    (adminStartMatchHandler s isOpen matchId now).1 =
      { s with
        store := updateMatch s.store matchId
          { status := some "live", startedAt := some now },
        matchStates := mapSet s.matchStates matchId
          ⟨"live", 0, 0, 0, 30⟩ } := by
  unfold adminStartMatchHandler
  exact broadcastToMatch_fst ..

/-- Per-operation effect on the standings store: every operation either
leaves it unchanged or appends one all-zero row (team registration). No
operation modifies or removes an existing standings row. -/
theorem applyOp_standings (op : Op) (s : ServerState) :
    (applyOp op s).store.standings = s.store.standings ∨
    ∃ sid cid tid, (applyOp op s).store.standings =
      s.store.standings ++ [zeroStanding sid cid tid] := by
  cases op with
  | authRegister email username hashedPassword role newId =>
    left
    unfold applyOp
    dsimp only
    split
    · rfl
    · split <;> rfl
  | authProfile userId username email => exact Or.inl rfl
  | changePassword userId validPassword newHash =>
    left
    unfold applyOp
    dsimp only
    split
    · rfl
    · split <;> rfl
  | createTeamRoute userId name description teamId memberId => exact Or.inl rfl
  | teamInvite userId teamId email invId expiresAt =>
    left
    unfold applyOp
    dsimp only
    split <;> rfl
  | competitionRegister userId competitionId teamId now reference payId regId standId =>
    rcases (competitionRegisterHandler_effects s.store userId competitionId teamId
        now reference payId regId standId).1 with h | h
    · exact Or.inl h
    · exact Or.inr ⟨standId, competitionId, teamId, h⟩
  | practiceStart userId teamId ptype txId sessId =>
    exact Or.inl (practiceStartHandler_components s.store userId teamId ptype
      txId sessId).1
  | practiceAnswer sessionId questionId answer =>
    left
    unfold applyOp
    dsimp only
    split
    · rfl
    · split <;> rfl
  | paymentsTokens userId teamId amount reference payId txId =>
    left
    unfold applyOp
    dsimp only
    split <;> rfl
  | adminCreateCompetition ins newId => exact Or.inl rfl
  | adminCreateQuestion ins newId => exact Or.inl rfl
  | adminStartMatch matchId now =>
    left
    show (adminStartMatchHandler s (fun _ => true) matchId now).1.store.standings =
      s.store.standings
    rw [adminStartMatchHandler_fst]
    rfl
  | storageCreateMatch ins newId => exact Or.inl rfl
  | wsJoin ws matchId =>
    left
    show (joinMatchHandler s ws matchId).1.store.standings = s.store.standings
    rw [joinMatchHandler_eq]
  | wsSubmit ws msg newId =>
    exact Or.inl (submitAnswerHandler_components s (fun _ => true) ws msg newId).1
  | wsClose ws => exact Or.inl rfl
  | readOnly => exact Or.inl rfl

/-- The operations that touch the WebSocket-side state (rooms, in-memory
match states, closed sockets); every other operation writes the storage
backend only. -/
def wsOp : Op → Prop
  | .adminStartMatch _ _ => True
  | .wsJoin _ _ => True
  | .wsSubmit _ _ _ => True
  | .wsClose _ => True
  | _ => False

/-- Operations outside `wsOp` leave the WebSocket-side components alone. -/
theorem applyOp_store_only (op : Op) (s : ServerState) (hop : ¬ wsOp op) :
    (applyOp op s).matchStates = s.matchStates ∧
    (applyOp op s).matchRooms = s.matchRooms ∧
    (applyOp op s).closedSockets = s.closedSockets := by
  cases op with
  | authRegister a b c e f =>
    unfold applyOp
    dsimp only
    split
    · exact ⟨rfl, rfl, rfl⟩
    · split <;> exact ⟨rfl, rfl, rfl⟩
  | changePassword a b c =>
    unfold applyOp
    dsimp only
    split
    · exact ⟨rfl, rfl, rfl⟩
    · split <;> exact ⟨rfl, rfl, rfl⟩
  | teamInvite a b c e f =>
    unfold applyOp
    dsimp only
    split <;> exact ⟨rfl, rfl, rfl⟩
  | practiceAnswer a b c =>
    unfold applyOp
    dsimp only
    split
    · exact ⟨rfl, rfl, rfl⟩
    · split <;> exact ⟨rfl, rfl, rfl⟩
  | paymentsTokens a b c e f g =>
    unfold applyOp
    dsimp only
    split <;> exact ⟨rfl, rfl, rfl⟩
  | authProfile a b c => exact ⟨rfl, rfl, rfl⟩
  | createTeamRoute a b c e f => exact ⟨rfl, rfl, rfl⟩
  | competitionRegister a b c e f g i j => exact ⟨rfl, rfl, rfl⟩
  | practiceStart a b c e f => exact ⟨rfl, rfl, rfl⟩
  | adminCreateCompetition a b => exact ⟨rfl, rfl, rfl⟩
  | adminCreateQuestion a b => exact ⟨rfl, rfl, rfl⟩
  | storageCreateMatch a b => exact ⟨rfl, rfl, rfl⟩
  | readOnly => exact ⟨rfl, rfl, rfl⟩
  | adminStartMatch a b => exact absurd trivial hop
  | wsJoin a b => exact absurd trivial hop
  | wsSubmit a b c => exact absurd trivial hop
  | wsClose a => exact absurd trivial hop

/-- **C2** (counterexample): no operation of the system ever changes or
removes an existing standings row; in particular, after a match reaches
status `completed` there is no operation that updates the standings of its
home and away teams — `updateStanding` exists in the storage layer but has
no caller anywhere in the routes or WebSocket handlers. -/
theorem standings_never_recomputed :
    ¬ ∃ (op : Op) (s : ServerState) (st : Standing),
      st ∈ s.store.standings ∧ st ∉ (applyOp op s).store.standings := by
  rintro ⟨op, s, st, hmem, hnot⟩
  rcases applyOp_standings op s with h | ⟨sid, cid, tid, h⟩
  · exact hnot (by rw [h]; exact hmem)
  · exact hnot (by rw [h]; exact List.mem_append_left _ hmem)

/-- **C2** (amended): standings rows are created only by team registration,
with all counters zero, and every operation of the system either leaves the
standings store unchanged or appends one such all-zero row; no operation —
match completion included — ever recomputes the wins/draws/losses or points
of an existing standing. -/
theorem standings_amended (op : Op) (s : ServerState) :
    (applyOp op s).store.standings = s.store.standings ∨
    ∃ sid cid tid, (applyOp op s).store.standings =
      s.store.standings ++ [zeroStanding sid cid tid] :=
  applyOp_standings op s

/-- One operation preserves "every tracked in-memory match state has
`currentQuestion = 0`". -/
theorem applyOp_currentQuestion (op : Op) (s : ServerState)
    (h : ∀ p ∈ s.matchStates, p.2.currentQuestion = 0) :
    ∀ p ∈ (applyOp op s).matchStates, p.2.currentQuestion = 0 := by
  by_cases hws : wsOp op
  · cases op with
    | adminStartMatch mid now =>
      intro p hp
      rw [show applyOp (.adminStartMatch mid now) s =
          (adminStartMatchHandler s (fun _ => true) mid now).1 from rfl,
        adminStartMatchHandler_fst] at hp
      rcases mem_mapSet _ _ _ _ hp with h' | h'
      · rw [h']
      · exact h p h'
    | wsJoin ws mid =>
      intro p hp
      rw [show applyOp (.wsJoin ws mid) s = (joinMatchHandler s ws mid).1 from rfl,
        joinMatchHandler_eq] at hp
      exact h p hp
    | wsSubmit ws msg newId =>
      intro p hp
      rcases submitAnswerHandler_matchStates s (fun _ => true) ws msg newId p hp with
        h' | ⟨st, hst, _, hcq⟩
      · exact h p h'
      · rw [hcq]
        exact h (msg.matchId, st) hst
    | wsClose ws => exact h
    | authRegister a b c e f => exact absurd hws (by simp [wsOp])
    | authProfile a b c => exact absurd hws (by simp [wsOp])
    | changePassword a b c => exact absurd hws (by simp [wsOp])
    | createTeamRoute a b c e f => exact absurd hws (by simp [wsOp])
    | teamInvite a b c e f => exact absurd hws (by simp [wsOp])
    | competitionRegister a b c e f g i j => exact absurd hws (by simp [wsOp])
    | practiceStart a b c e f => exact absurd hws (by simp [wsOp])
    | practiceAnswer a b c => exact absurd hws (by simp [wsOp])
    | paymentsTokens a b c e f g => exact absurd hws (by simp [wsOp])
    | adminCreateCompetition a b => exact absurd hws (by simp [wsOp])
    | adminCreateQuestion a b => exact absurd hws (by simp [wsOp])
    | storageCreateMatch a b => exact absurd hws (by simp [wsOp])
    | readOnly => exact absurd hws (by simp [wsOp])
  · rw [(applyOp_store_only op s hws).1]
    exact h

/-- In every reachable server state, every tracked in-memory match state has
`currentQuestion = 0`. -/
theorem reachable_currentQuestion (s : ServerState) (hs : Reachable s) :
    ∀ p ∈ s.matchStates, p.2.currentQuestion = 0 := by
  induction hs with
  | start => intro p hp; exact absurd hp (by simp [serverStart])
  | step op s' hs' hok ih => exact applyOp_currentQuestion op s' ih

/-- **C6** (counterexample): there is no reachable state — under any
sequence of admin match starts and WebSocket messages — in which any match's
in-memory `currentQuestion` differs from its initial value `0`: the admin
start handler writes `0` and no message branch ever changes the field. -/
theorem currentQuestion_never_advances :
    ¬ ∃ s, Reachable s ∧ ∃ p ∈ s.matchStates, p.2.currentQuestion ≠ 0 := by
  rintro ⟨s, hs, p, hp, hne⟩
  exact hne (reachable_currentQuestion s hs p hp)

/-- **C6** (amended): the in-memory per-match state carries a
`currentQuestion` field, but the live-match subsystem never advances it: in
every reachable state every tracked match state still has its initial value
`currentQuestion = 0`. -/
theorem currentQuestion_amended (s : ServerState) (hs : Reachable s) :
    ∀ p ∈ s.matchStates, p.2.currentQuestion = 0 :=
  reachable_currentQuestion s hs

/-- Witness for the amended C6 statement at a concrete reachable state: the
state reached by starting match `"m1"` from process start tracks `"m1"` with
`currentQuestion = 0`. -/
theorem currentQuestion_amended_witness :
    (("m1", (⟨"live", 0, 0, 0, 30⟩ : MatchState)) ∈
      (applyOp (.adminStartMatch "m1" 0) serverStart).matchStates) ∧
    ("m1", (⟨"live", 0, 0, 0, 30⟩ : MatchState)).2.currentQuestion = 0 :=
  ⟨by decide,
   currentQuestion_amended (applyOp (.adminStartMatch "m1" 0) serverStart)
    (Reachable.step (.adminStartMatch "m1" 0) serverStart Reachable.start trivial)
    ("m1", ⟨"live", 0, 0, 0, 30⟩) (by decide)⟩

/-- One operation preserves well-formedness of the room map: every room is
non-empty and contains no closed socket. -/
theorem applyOp_rooms (op : Op) (s : ServerState) (hok : OpOk op s)
    (h : ∀ p ∈ s.matchRooms, p.2 ≠ [] ∧ ∀ w ∈ p.2, w ∉ s.closedSockets) :
    ∀ p ∈ (applyOp op s).matchRooms, p.2 ≠ [] ∧
      ∀ w ∈ p.2, w ∉ (applyOp op s).closedSockets := by
  by_cases hws : wsOp op
  · cases op with
    | adminStartMatch mid now =>
      intro p hp
      rw [show applyOp (.adminStartMatch mid now) s =
          (adminStartMatchHandler s (fun _ => true) mid now).1 from rfl,
        adminStartMatchHandler_fst] at hp ⊢
      exact h p hp
    | wsJoin ws mid =>
      have hok' : ws ∉ s.closedSockets := hok
      intro p hp
      rw [show applyOp (.wsJoin ws mid) s = (joinMatchHandler s ws mid).1 from rfl,
        joinMatchHandler_eq] at hp ⊢
      rcases mem_mapSet _ _ _ _ hp with h' | h'
      · rw [h']
        refine ⟨setAdd_ne_nil _ _, fun w hw => ?_⟩
        rcases mem_setAdd _ _ _ hw with h'' | h''
        · rw [h'']
          exact hok'
        · cases hr : mapLookup s.matchRooms mid with
          | none =>
            rw [hr] at h''
            exact absurd h'' (by simp)
          | some r =>
            rw [hr] at h''
            exact (h (mid, r) (mem_of_mapLookup _ _ _ hr)).2 w h''
      · exact h p h'
    | wsSubmit ws msg newId =>
      intro p hp
      rw [show applyOp (.wsSubmit ws msg newId) s =
          (submitAnswerHandler s (fun _ => true) ws msg newId).1 from rfl] at hp ⊢
      rw [(submitAnswerHandler_components s (fun _ => true) ws msg newId).2.1] at hp
      rw [(submitAnswerHandler_components s (fun _ => true) ws msg newId).2.2]
      exact h p hp
    | wsClose ws =>
      intro p hp
      rw [show applyOp (.wsClose ws) s = wsCloseHandler s ws from rfl,
        wsCloseHandler] at hp ⊢
      rcases List.mem_filter.mp hp with ⟨hp1, hp2⟩
      rcases List.mem_map.mp hp1 with ⟨q, hq, he⟩
      refine ⟨by simpa using hp2, fun w hw => ?_⟩
      rw [← he] at hw
      rcases (mem_setDelete _ _ _).mp hw with ⟨hwq, hwne⟩
      have hnc : w ∉ s.closedSockets := (h q hq).2 w hwq
      simp [List.mem_append, hnc, hwne]
    | authRegister a b c e f => exact absurd hws (by simp [wsOp])
    | authProfile a b c => exact absurd hws (by simp [wsOp])
    | changePassword a b c => exact absurd hws (by simp [wsOp])
    | createTeamRoute a b c e f => exact absurd hws (by simp [wsOp])
    | teamInvite a b c e f => exact absurd hws (by simp [wsOp])
    | competitionRegister a b c e f g i j => exact absurd hws (by simp [wsOp])
    | practiceStart a b c e f => exact absurd hws (by simp [wsOp])
    | practiceAnswer a b c => exact absurd hws (by simp [wsOp])
    | paymentsTokens a b c e f g => exact absurd hws (by simp [wsOp])
    | adminCreateCompetition a b => exact absurd hws (by simp [wsOp])
    | adminCreateQuestion a b => exact absurd hws (by simp [wsOp])
    | storageCreateMatch a b => exact absurd hws (by simp [wsOp])
    | readOnly => exact absurd hws (by simp [wsOp])
  · rw [(applyOp_store_only op s hws).2.1, (applyOp_store_only op s hws).2.2]
    exact h

/-- **C4**: the close handler removes the socket from every room and drops
rooms that became empty; consequently, in every reachable server state,
every room present in `matchRooms` is non-empty and contains no socket whose
close event has fired. -/
theorem rooms_invariant (s : ServerState) (hs : Reachable s) :
    ∀ p ∈ s.matchRooms, p.2 ≠ [] ∧ ∀ w ∈ p.2, w ∉ s.closedSockets := by
  induction hs with
  | start => intro p hp; exact absurd hp (by simp [serverStart])
  | step op s' hs' hok ih => exact applyOp_rooms op s' hok ih

/-- Witness for C4 at a concrete reachable state: after socket `1` joins
match `"m1"` and socket `2` joins and closes, the room of `"m1"` is the
non-empty `[1]` and contains no closed socket. -/
theorem rooms_invariant_witness :
    (("m1", [1]) ∈ (applyOp (.wsClose 2) (applyOp (.wsJoin 2 "m1")
      (applyOp (.wsJoin 1 "m1") serverStart))).matchRooms) ∧
    (("m1", [1]).2 ≠ ([] : List Nat) ∧ ∀ w ∈ ("m1", [1]).2,
      w ∉ (applyOp (.wsClose 2) (applyOp (.wsJoin 2 "m1")
        (applyOp (.wsJoin 1 "m1") serverStart))).closedSockets) :=
  ⟨by decide,
   rooms_invariant
    (applyOp (.wsClose 2) (applyOp (.wsJoin 2 "m1")
      (applyOp (.wsJoin 1 "m1") serverStart)))
    (Reachable.step (.wsClose 2) _
      (Reachable.step (.wsJoin 2 "m1") _
        (Reachable.step (.wsJoin 1 "m1") serverStart Reachable.start
          (by simp [OpOk, serverStart]))
        (by simp [OpOk, applyOp, serverStart, joinMatchHandler]))
      (by simp [OpOk, applyOp, serverStart, joinMatchHandler]))
    ("m1", [1]) (by decide)⟩

/-- The three admissible values of a match status. -/
def statusOk (x : String) : Prop :=
  x = "waiting" ∨ x = "live" ∨ x = "completed"

/-- The operations that write the `matches` store. -/
def matchWriteOp : Op → Prop
  | .adminStartMatch _ _ => True
  | .wsSubmit _ _ _ => True
  | .storageCreateMatch _ _ => True
  | _ => False

/-- Operations outside `matchWriteOp` leave the `matches` store alone. -/
theorem applyOp_gameMatches (op : Op) (s : ServerState) (hop : ¬ matchWriteOp op) :
    (applyOp op s).store.gameMatches = s.store.gameMatches := by
  cases op with
  | authRegister a b c e f =>
    unfold applyOp
    dsimp only
    split
    · rfl
    · split <;> rfl
  | changePassword a b c =>
    unfold applyOp
    dsimp only
    split
    · rfl
    · split <;> rfl
  | teamInvite a b c e f =>
    unfold applyOp
    dsimp only
    split <;> rfl
  | practiceAnswer a b c =>
    unfold applyOp
    dsimp only
    split
    · rfl
    · split <;> rfl
  | paymentsTokens a b c e f g =>
    unfold applyOp
    dsimp only
    split <;> rfl
  | competitionRegister a b c e f g i j =>
    exact (competitionRegisterHandler_effects s.store a b c e f g i j).2
  | practiceStart a b c e f =>
    exact (practiceStartHandler_components s.store a b c e f).2
  | authProfile a b c => rfl
  | createTeamRoute a b c e f => rfl
  | adminCreateCompetition a b => rfl
  | adminCreateQuestion a b => rfl
  | readOnly => rfl
  | wsJoin a b =>
    show (joinMatchHandler s a b).1.store.gameMatches = s.store.gameMatches
    rw [joinMatchHandler_eq]
  | wsClose a => rfl
  | adminStartMatch a b => exact absurd trivial hop
  | wsSubmit a b c => exact absurd trivial hop
  | storageCreateMatch a b => exact absurd trivial hop

/-- One operation preserves "every match status, stored or in memory, is one
of waiting, live, completed". -/
theorem applyOp_statuses (op : Op) (s : ServerState)
    (h1 : ∀ m ∈ s.store.gameMatches, statusOk m.status)
    (h2 : ∀ p ∈ s.matchStates, statusOk p.2.status) :
    (∀ m ∈ (applyOp op s).store.gameMatches, statusOk m.status) ∧
    (∀ p ∈ (applyOp op s).matchStates, statusOk p.2.status) := by
  by_cases hmw : matchWriteOp op
  · cases op with
    | adminStartMatch mid now =>
      constructor
      · intro m hm
        rw [show applyOp (.adminStartMatch mid now) s =
            (adminStartMatchHandler s (fun _ => true) mid now).1 from rfl,
          adminStartMatchHandler_fst] at hm
        simp only [updateMatch] at hm
        rcases mem_updateById _ _ _ _ _ hm with ⟨x, hx, hcase⟩
        rcases hcase with hcap | hcap
        · rw [hcap]
          right; left; rfl
        · rw [hcap]
          exact h1 x hx
      · intro p hp
        rw [show applyOp (.adminStartMatch mid now) s =
            (adminStartMatchHandler s (fun _ => true) mid now).1 from rfl,
          adminStartMatchHandler_fst] at hp
        rcases mem_mapSet _ _ _ _ hp with h' | h'
        · rw [h']
          right; left; rfl
        · exact h2 p h'
    | wsSubmit ws msg newId =>
      constructor
      · intro m hm
        rw [show applyOp (.wsSubmit ws msg newId) s =
            (submitAnswerHandler s (fun _ => true) ws msg newId).1 from rfl] at hm
        rcases submitAnswerHandler_gameMatches s (fun _ => true) ws msg newId m hm
          with ⟨x, hx, hst⟩
        rw [hst]
        exact h1 x hx
      · intro p hp
        rw [show applyOp (.wsSubmit ws msg newId) s =
            (submitAnswerHandler s (fun _ => true) ws msg newId).1 from rfl] at hp
        rcases submitAnswerHandler_matchStates s (fun _ => true) ws msg newId p hp
          with h' | ⟨st, hst, hstatus, _⟩
        · exact h2 p h'
        · rw [hstatus]
          exact h2 (msg.matchId, st) hst
    | storageCreateMatch ins newId =>
      constructor
      · intro m hm
        rw [show applyOp (.storageCreateMatch ins newId) s =
            { s with store := createMatch s.store ins newId } from rfl] at hm
        simp only [createMatch] at hm
        rcases List.mem_append.mp hm with h' | h'
        · exact h1 m h'
        · have hme : m = createMatchRecord ins newId := by simpa using h'
          rw [hme]
          unfold createMatchRecord
          cases ins.status with
          | none => left; rfl
          | some v =>
            cases v with
            | waiting => left; rfl
            | live => right; left; rfl
            | completed => right; right; rfl
      · exact h2
    | authRegister a b c e f => exact absurd hmw (by simp [matchWriteOp])
    | authProfile a b c => exact absurd hmw (by simp [matchWriteOp])
    | changePassword a b c => exact absurd hmw (by simp [matchWriteOp])
    | createTeamRoute a b c e f => exact absurd hmw (by simp [matchWriteOp])
    | teamInvite a b c e f => exact absurd hmw (by simp [matchWriteOp])
    | competitionRegister a b c e f g i j => exact absurd hmw (by simp [matchWriteOp])
    | practiceStart a b c e f => exact absurd hmw (by simp [matchWriteOp])
    | practiceAnswer a b c => exact absurd hmw (by simp [matchWriteOp])
    | paymentsTokens a b c e f g => exact absurd hmw (by simp [matchWriteOp])
    | adminCreateCompetition a b => exact absurd hmw (by simp [matchWriteOp])
    | adminCreateQuestion a b => exact absurd hmw (by simp [matchWriteOp])
    | wsJoin a b => exact absurd hmw (by simp [matchWriteOp])
    | wsClose a => exact absurd hmw (by simp [matchWriteOp])
    | readOnly => exact absurd hmw (by simp [matchWriteOp])
  · refine ⟨?_, ?_⟩
    · rw [applyOp_gameMatches op s hmw]
      exact h1
    · by_cases hws : wsOp op
      · cases op with
        | wsJoin a b =>
          show ∀ p ∈ (joinMatchHandler s a b).1.matchStates, statusOk p.2.status
          rw [joinMatchHandler_eq]
          exact h2
        | wsClose a => exact h2
        | adminStartMatch a b => exact absurd trivial hmw
        | wsSubmit a b c => exact absurd trivial hmw
        | authRegister a b c e f => exact absurd hws (by simp [wsOp])
        | authProfile a b c => exact absurd hws (by simp [wsOp])
        | changePassword a b c => exact absurd hws (by simp [wsOp])
        | createTeamRoute a b c e f => exact absurd hws (by simp [wsOp])
        | teamInvite a b c e f => exact absurd hws (by simp [wsOp])
        | competitionRegister a b c e f g i j => exact absurd hws (by simp [wsOp])
        | practiceStart a b c e f => exact absurd hws (by simp [wsOp])
        | practiceAnswer a b c => exact absurd hws (by simp [wsOp])
        | paymentsTokens a b c e f g => exact absurd hws (by simp [wsOp])
        | adminCreateCompetition a b => exact absurd hws (by simp [wsOp])
        | adminCreateQuestion a b => exact absurd hws (by simp [wsOp])
        | storageCreateMatch a b => exact absurd hws (by simp [wsOp])
        | readOnly => exact absurd hws (by simp [wsOp])
      · rw [(applyOp_store_only op s hws).1]
        exact h2

/-- In every reachable state, all stored and in-memory statuses are in the
three-value enum. -/
theorem reachable_statuses (s : ServerState) (hs : Reachable s) :
    (∀ m ∈ s.store.gameMatches, statusOk m.status) ∧
    (∀ p ∈ s.matchStates, statusOk p.2.status) := by
  induction hs with
  | start =>
    constructor <;> intro p hp <;> exact absurd hp (by simp [serverStart, emptyLocalData])
  | step op s' hs' hok ih => exact applyOp_statuses op s' ih.1 ih.2

/-- **C7**: in every reachable state, every stored match row and every
in-memory match state has status `waiting`, `live` or `completed`; a newly
created match row whose insert omits `status` defaults to `waiting`; and a
`join_match` for a match without recorded state replies with the default
state, whose status is `waiting`. -/
theorem match_status_invariant :
    (∀ s, Reachable s →
      (∀ m ∈ s.store.gameMatches, statusOk m.status) ∧
      (∀ p ∈ s.matchStates, statusOk p.2.status)) ∧
    (∀ (ins : InsertMatch) (id : String), ins.status = none →
      (createMatchRecord ins id).status = "waiting") ∧
    (∀ (s : ServerState) (ws : Nat) (mid : String),
      mapLookup s.matchStates mid = none →
      (joinMatchHandler s ws mid).2 = [(ws, .matchStateFull defaultMatchState)]) ∧
    defaultMatchState.status = "waiting" := by
  refine ⟨fun s hs => reachable_statuses s hs, ?_, ?_, rfl⟩
  · intro ins id hnone
    unfold createMatchRecord
    rw [hnone]
    rfl
  · intro s ws mid hnone
    rw [joinMatchHandler_eq, hnone]
    rfl

/-- Witness for C7 at concrete inputs: a match created without a status from
process start, and a join to a match with no recorded state. -/
theorem match_status_invariant_witness :
    ((∀ m ∈ (applyOp (.storageCreateMatch ⟨"c1", "t1", "t2", 1, 0, none⟩ "m1")
        serverStart).store.gameMatches, statusOk m.status) ∧
      (∀ p ∈ (applyOp (.storageCreateMatch ⟨"c1", "t1", "t2", 1, 0, none⟩ "m1")
        serverStart).matchStates, statusOk p.2.status)) ∧
    (createMatchRecord ⟨"c1", "t1", "t2", 1, 0, none⟩ "m1").status = "waiting" ∧
    (joinMatchHandler serverStart 1 "m1").2 =
      [(1, .matchStateFull defaultMatchState)] :=
  ⟨match_status_invariant.1 _ (Reachable.step _ _ Reachable.start trivial),
   match_status_invariant.2.1 _ _ rfl,
   match_status_invariant.2.2.1 serverStart 1 "m1" rfl⟩

/-- An ordinary match row between distinct teams `"t1"` and `"t2"`. -/
def sampleMatch : GameMatch :=
  { id := "m2", competitionId := "c1", homeTeamId := "t1", awayTeamId := "t2",
    round := 1, scheduledAt := 0, status := "waiting", homeScore := 0,
    awayScore := 0, startedAt := none, completedAt := none }

/-- A server state holding the sample question and the ordinary match. -/
def sampleState : ServerState :=
  { store := { emptyLocalData with
      questions := [sampleQuestion], gameMatches := [sampleMatch] },
    matchRooms := [], matchStates := [], closedSockets := [] }

/-- A correct `submit_answer` message of team `"t1"` in the ordinary match. -/
def sampleMsg : SubmitAnswerMsg :=
  { matchId := "m2", userId := "u1", questionId := "q1", answer := "A",
    teamId := "t1", timeTaken := none }

/-- Witness for the amended C1 statement at a concrete input: the sample
state, question and message, with distinct home and away teams. -/
theorem submitAnswer_scores_spec_witness :
    ∃ m', getMatch (submitAnswerHandler sampleState (fun _ => true) 1 sampleMsg
        "a1").1.store sampleMsg.matchId = some m' ∧
      m'.homeScore = (countCorrectFor
        (getAnswersByMatch (submitAnswerHandler sampleState (fun _ => true) 1
          sampleMsg "a1").1.store sampleMsg.matchId) sampleMatch.homeTeamId : Int) ∧
      m'.awayScore = (countCorrectFor
        (getAnswersByMatch (submitAnswerHandler sampleState (fun _ => true) 1
          sampleMsg "a1").1.store sampleMsg.matchId) sampleMatch.awayTeamId : Int) ∧
      ∃ ps, (submitAnswerHandler sampleState (fun _ => true) 1 sampleMsg "a1").2 =
        (1, .answerResult (decide (sampleMsg.answer = sampleQuestion.correctAnswer))) ::
          (broadcastToMatch (submitAnswerHandler sampleState (fun _ => true) 1
            sampleMsg "a1").1 (fun _ => true) sampleMsg.matchId
            (.scoreUpdate ps m'.homeScore m'.awayScore)).2 :=
  submitAnswer_scores_spec sampleState (fun _ => true) 1 sampleMsg "a1"
    sampleQuestion sampleMatch (by decide) (by decide) (by decide)

end QuizLeague
